import Mathlib

/-!
# Walkontable `Scroll`: viewport-scroll coordination

A shallow embedding of `src/handsontable/src/3rdparty/walkontable/src/scroll.js`.

Modelling conventions.

* JavaScript numbers are binary64 values, modelled by the rationals (`ℚ`) they denote:
  targets, hook results, the two `lastScrolled*Pos` fields and every pixel measurement.
  Comparisons and `Math.abs` are exact; the operators `+` and `-` on pixel values are
  `Number.add` and `Number.sub`, the exact result rounded to the nearest binary64 value
  (ties to even) by `binary64`.  `NaN`, the infinities, overflow, subnormal values and
  non-number values are outside the model.  Counts and indices supplied by the data
  access object (`totalRows`, `fixedRowsTop`, `getFirstVisibleRow()` ...) are integers,
  far below `2 ^ 53`, on which `+` and `-` are exact.
* An optional boolean argument (`snapToRight` ...) is an `Option Bool`; `none` is
  JavaScript `undefined`.
* The data access object is read through getters, so its values belong to the current
  DOM state.  A DOM state is a value of an arbitrary type `σ`; `Dom.dataAccessObject`
  reads the getters in a state and each overlay `scrollTo` maps a state to its boolean
  result and the next state.
* Every call of a pre-scroll hook and of an overlay `scrollTo` is recorded, in order,
  in the `calls` field of the `Outcome` of a method.
* The DOM helpers imported from `helpers/dom/element` (`offset`, `getScrollTop`,
  `getScrollLeft`, `innerHeight`, `innerWidth`) are not part of the module; their
  results are fields of the data access object.
-/

namespace Walkontable

/-- The result of `offset(element)`: the position of an element in the document. -/
structure Offset where
  top : ℚ
  left : ℚ

/-- The measurements of `rootWindow` read by `Scroll`. -/
structure RootWindow where
  /-- The value of `getScrollTop(rootWindow, rootWindow)`. -/
  getScrollTop : ℚ
  /-- The value of `getScrollLeft(rootWindow, rootWindow)`; negative in RTL documents. -/
  getScrollLeft : ℚ
  /-- The value of `innerHeight(rootWindow)`. -/
  innerHeight : ℚ
  /-- The value of `innerWidth(rootWindow)`. -/
  innerWidth : ℚ
  /-- The value of `rootWindow.document.documentElement.offsetWidth`. -/
  docOffsetWidth : ℚ

/-- The part of `wtTable` read by `Scroll`. -/
structure WtTable where
  getFirstVisibleRow : Int
  getLastVisibleRow : Int
  getFirstVisibleColumn : Int
  getLastVisibleColumn : Int
  /-- The value of `offset(wtTable.wtRootElement)`. -/
  rootElementOffset : Offset
  /-- The value of `wtTable.TABLE.getBoundingClientRect().right`. -/
  tableRectRight : ℚ

/-- The part of `wtViewport` read by `Scroll`. -/
structure WtViewport where
  getColumnHeaderHeight : ℚ
  getRowHeaderWidth : ℚ

/-- The settings read through `wtSettings.getSetting`. -/
structure WtSettings where
  /-- The value of `getSetting('rtlMode')`. -/
  rtlMode : Bool
  /-- The function `column ↦ getSetting('onBeforeViewportScrollHorizontally', column)`. -/
  onBeforeViewportScrollHorizontally : ℚ → ℚ
  /-- The function `row ↦ getSetting('onBeforeViewportScrollVertically', row)`. -/
  onBeforeViewportScrollVertically : ℚ → ℚ

/-- The readable part of an axis overlay (`topOverlay`, `inlineStartOverlay`). -/
structure Overlay where
  /-- The value of `overlay.mainTableScrollableElement === rootWindow`. -/
  mainTableScrollableElementIsRootWindow : Bool
  /-- The method `sumCellSizes(from, to)`. -/
  sumCellSizes : Int → Int → ℚ

/-- The values of the `ScrollDao` getters in one DOM state. -/
structure ScrollDao where
  drawn : Bool
  totalRows : Int
  totalColumns : Int
  fixedRowsTop : Int
  fixedRowsBottom : Int
  fixedColumnsStart : Int
  wtTable : WtTable
  wtViewport : WtViewport
  wtSettings : WtSettings
  rootWindow : RootWindow
  topOverlay : Overlay
  inlineStartOverlay : Overlay

/-- The environment of a `Scroll` object over DOM states of type `σ`: the getters of the
data access object and the two state-changing overlay methods. -/
structure Dom (σ : Type) where
  dataAccessObject : σ → ScrollDao
  /-- The method `inlineStartOverlay.scrollTo(column, flag)`: result and next DOM state. -/
  inlineStartOverlayScrollTo : σ → ℚ → Option Bool → Bool × σ
  /-- The method `topOverlay.scrollTo(row, flag)`: result and next DOM state. -/
  topOverlayScrollTo : σ → ℚ → Option Bool → Bool × σ

/-- The mutable fields of a `Scroll` object. -/
structure Scroll where
  lastScrolledColumnPos : ℚ
  lastScrolledRowPos : ℚ
deriving DecidableEq

/-- The field initialisers of the class: both positions start at `-1`. -/
def Scroll.new : Scroll :=
  { lastScrolledColumnPos := -1, lastScrolledRowPos := -1 }

/-- A call made by a `Scroll` method to a collaborator. -/
inductive Call where
  | onBeforeViewportScrollHorizontally (column : ℚ)
  | onBeforeViewportScrollVertically (row : ℚ)
  | inlineStartOverlayScrollTo (column : ℚ) (flag : Option Bool)
  | topOverlayScrollTo (row : ℚ) (flag : Option Bool)
deriving DecidableEq

/-- Whether a recorded call is a call of an overlay `scrollTo`. -/
def Call.isScrollTo : Call → Bool
  | .inlineStartOverlayScrollTo _ _ => true
  | .topOverlayScrollTo _ _ => true
  | _ => false

/-- Whether a recorded call is a call of a pre-scroll hook. -/
def Call.isHook : Call → Bool
  | .onBeforeViewportScrollHorizontally _ => true
  | .onBeforeViewportScrollVertically _ => true
  | _ => false

/-- What a method call leaves behind: the returned boolean, the fields of the `Scroll`
object, the DOM state and the calls made, oldest first. -/
structure Outcome (σ : Type) where
  result : Bool
  self : Scroll
  dom : σ
  calls : List Call

/-- The predicate `Number.isInteger` on a number. -/
def Number.isInteger (x : ℚ) : Bool :=
  decide (x.den = 1)

/-- The integer nearest to `s`; a tie goes to the even integer. -/
def roundHalfEven (s : ℚ) : Int :=
  if s - ⌊s⌋ < 1 / 2 then ⌊s⌋
  else if s - ⌊s⌋ > 1 / 2 then ⌊s⌋ + 1
  else if ⌊s⌋ % 2 = 0 then ⌊s⌋ else ⌊s⌋ + 1

/-- The binary64 value nearest to `x` (round to nearest, ties to even): with
`2 ^ e ≤ |x| < 2 ^ (e + 1)`, the significand `x / 2 ^ (e - 52)` is rounded to an integer.
Overflow and subnormal values are not modelled. -/
def binary64 (x : ℚ) : ℚ :=
  if x = 0 then 0
  else (roundHalfEven (x * 2 ^ (52 - Int.log 2 |x|)) : ℚ) * 2 ^ (Int.log 2 |x| - 52)

/-- The operator `+` on two numbers: the exact sum, rounded. -/
def Number.add (a b : ℚ) : ℚ :=
  binary64 (a + b)

/-- The operator `-` on two numbers: the exact difference, rounded. -/
def Number.sub (a b : ℚ) : ℚ :=
  binary64 (a - b)

/-- The loop shared by `getLastVisibleRow` and `getLastVisibleColumn`:
`for (let row = 1; row <= total; row++)` with `remaining` iterations left, the loop
variable at `row` and the accumulated size `size`.  The body is
`size += sumCellSizes(row - 1, row)` and the test
`startOffset + size - windowScroll >= windowSize`, with the `+` and `-` of numbers.  The
result is `some (row - 2)` at the `break`, and `none` when the loop ends without it. -/
def overflowWalk (sumCellSizes : Int → Int → ℚ) (startOffset windowScroll windowSize : ℚ) :
    Nat → Int → ℚ → Option Int
  | 0, _, _ => none
  | remaining + 1, row, size =>
    let size := Number.add size (sumCellSizes (row - 1) row)
    if Number.sub (Number.add startOffset size) windowScroll ≥ windowSize then
      some (row - 2)
    else
      overflowWalk sumCellSizes startOffset windowScroll windowSize remaining (row + 1) size

namespace Scroll

/-- The method `getFirstVisibleRow`. -/
def getFirstVisibleRow (dao : ScrollDao) : Int :=
  dao.wtTable.getFirstVisibleRow

/-- The method `getLastVisibleRow`. -/
def getLastVisibleRow (dao : ScrollDao) : Int :=
  let lastVisibleRow := dao.wtTable.getLastVisibleRow
  if dao.topOverlay.mainTableScrollableElementIsRootWindow then
    let rootElementOffset := dao.wtTable.rootElementOffset
    let windowScrollTop := dao.rootWindow.getScrollTop
    if rootElementOffset.top > windowScrollTop then
      let windowHeight := dao.rootWindow.innerHeight
      let rowsHeight := dao.wtViewport.getColumnHeaderHeight
      match overflowWalk dao.topOverlay.sumCellSizes rootElementOffset.top windowScrollTop
          windowHeight dao.totalRows.toNat 1 rowsHeight with
      | some row => row
      | none => lastVisibleRow
    else
      lastVisibleRow
  else
    lastVisibleRow

/-- The method `getFirstVisibleColumn`. -/
def getFirstVisibleColumn (dao : ScrollDao) : Int :=
  dao.wtTable.getFirstVisibleColumn

/-- The value of `inlineStartRootElementOffset` in `getLastVisibleColumn`. -/
def inlineStartRootElementOffset (dao : ScrollDao) : ℚ :=
  if dao.wtSettings.rtlMode then
    |Number.sub dao.wtTable.tableRectRight dao.rootWindow.docOffsetWidth|
  else
    dao.wtTable.rootElementOffset.left

/-- The method `getLastVisibleColumn`. -/
def getLastVisibleColumn (dao : ScrollDao) : Int :=
  let lastVisibleColumn := dao.wtTable.getLastVisibleColumn
  if dao.inlineStartOverlay.mainTableScrollableElementIsRootWindow then
    let inlineStartRootElementOffset := inlineStartRootElementOffset dao
    let windowScrollLeft := |dao.rootWindow.getScrollLeft|
    if inlineStartRootElementOffset > windowScrollLeft then
      let windowWidth := dao.rootWindow.innerWidth
      let columnsWidth := dao.wtViewport.getRowHeaderWidth
      match overflowWalk dao.inlineStartOverlay.sumCellSizes inlineStartRootElementOffset
          windowScrollLeft windowWidth dao.totalColumns.toNat 1 columnsWidth with
      | some column => column
      | none => lastVisibleColumn
    else
      lastVisibleColumn
  else
    lastVisibleColumn

/-- The tail shared by the two scrolling branches of `scrollViewportHorizontally`, entered
after the hook has turned `column` into `hooked`:
`result = inlineStartOverlay.scrollTo(hooked, flag)`, then
`if (result) { this.lastScrolledColumnPos = hooked; }` and `return result`. -/
def scrollToColumn {σ : Type} (env : Dom σ) (w : σ) (self : Scroll) (column hooked : ℚ)
    (flag : Option Bool) : Outcome σ :=
  let scrolled := env.inlineStartOverlayScrollTo w hooked flag
  { result := scrolled.1
    self := if scrolled.1 then { self with lastScrolledColumnPos := hooked } else self
    dom := scrolled.2
    calls := [.onBeforeViewportScrollHorizontally column,
              .inlineStartOverlayScrollTo hooked flag] }

/-- The tail shared by the two scrolling branches of `scrollViewportVertically`, entered
after the hook has turned `row` into `hooked`: `result = topOverlay.scrollTo(hooked, flag)`,
then `if (result) { this.lastScrolledRowPos = hooked; }` and `return result`. -/
def scrollToRow {σ : Type} (env : Dom σ) (w : σ) (self : Scroll) (row hooked : ℚ)
    (flag : Option Bool) : Outcome σ :=
  let scrolled := env.topOverlayScrollTo w hooked flag
  { result := scrolled.1
    self := if scrolled.1 then { self with lastScrolledRowPos := hooked } else self
    dom := scrolled.2
    calls := [.onBeforeViewportScrollVertically row, .topOverlayScrollTo hooked flag] }

/-- The method `scrollViewportHorizontally`, called in DOM state `w` on the object `self`. -/
def scrollViewportHorizontally {σ : Type} (env : Dom σ) (w : σ) (self : Scroll)
    (column : ℚ) (snapToRight snapToLeft : Option Bool) : Outcome σ :=
  let dao := env.dataAccessObject w
  if ¬ dao.drawn ∨ ¬ Number.isInteger column ∨ column < 0 ∨ column > dao.totalColumns then
    { result := false, self := self, dom := w, calls := [] }
  else
    let firstVisibleColumn := getFirstVisibleColumn dao
    let lastVisibleColumn := getLastVisibleColumn dao
    let autoSnapping : Bool := snapToRight.isNone && snapToLeft.isNone
    if autoSnapping ∧ column < dao.fixedColumnsStart then
      { result := false, self := self, dom := w, calls := [] }
    else
      let hooked := dao.wtSettings.onBeforeViewportScrollHorizontally column
      if firstVisibleColumn = -1 then
        scrollToColumn env w self column hooked
          (if autoSnapping then some (decide (hooked > self.lastScrolledColumnPos))
           else snapToRight)
      else if autoSnapping ∧ (hooked < firstVisibleColumn ∨ hooked > lastVisibleColumn)
          ∨ ¬ autoSnapping then
        scrollToColumn env w self column hooked
          (if autoSnapping then some (decide (hooked > lastVisibleColumn)) else snapToRight)
      else
        { result := false, self := self, dom := w,
          calls := [.onBeforeViewportScrollHorizontally column] }

/-- The method `scrollViewportVertically`, called in DOM state `w` on the object `self`. -/
def scrollViewportVertically {σ : Type} (env : Dom σ) (w : σ) (self : Scroll)
    (row : ℚ) (snapToTop snapToBottom : Option Bool) : Outcome σ :=
  let dao := env.dataAccessObject w
  if ¬ dao.drawn ∨ ¬ Number.isInteger row ∨ row < 0 ∨ row > dao.totalRows then
    { result := false, self := self, dom := w, calls := [] }
  else
    let firstVisibleRow := getFirstVisibleRow dao
    let lastVisibleRow := getLastVisibleRow dao
    let autoSnapping : Bool := snapToTop.isNone && snapToBottom.isNone
    if autoSnapping ∧ (row < dao.fixedRowsTop
        ∨ row > ((dao.totalRows - dao.fixedRowsBottom - 1 : Int) : ℚ)) then
      { result := false, self := self, dom := w, calls := [] }
    else
      let hooked := dao.wtSettings.onBeforeViewportScrollVertically row
      if firstVisibleRow = -1 then
        scrollToRow env w self row hooked
          (if autoSnapping then some (decide (hooked > self.lastScrolledRowPos))
           else snapToBottom)
      else if autoSnapping ∧ (hooked < firstVisibleRow ∨ hooked > lastVisibleRow)
          ∨ ¬ autoSnapping then
        scrollToRow env w self row hooked
          (if autoSnapping then some (decide (hooked > lastVisibleRow)) else snapToBottom)
      else
        { result := false, self := self, dom := w,
          calls := [.onBeforeViewportScrollVertically row] }

/-- The method `scrollViewport`; `col` and `row` are `coords.col` and `coords.row`. -/
def scrollViewport {σ : Type} (env : Dom σ) (w : σ) (self : Scroll) (col row : ℚ)
    (snapToTop snapToRight snapToBottom snapToLeft : Option Bool) : Outcome σ :=
  let scrolledHorizontally := scrollViewportHorizontally env w self col snapToRight snapToLeft
  let scrolledVertically :=
    scrollViewportVertically env scrolledHorizontally.dom scrolledHorizontally.self row
      snapToTop snapToBottom
  { result := scrolledHorizontally.result || scrolledVertically.result
    self := scrolledVertically.self
    dom := scrolledVertically.dom
    calls := scrolledHorizontally.calls ++ scrolledVertically.calls }

/-! ## Concrete tables used in the examples -/

/-- A drawn table of 100 rows and 50 columns with three frozen leading columns, scrolled
inside its own container, in which no row and no column is fully visible. -/
def exampleDao : ScrollDao :=
  { drawn := true
    totalRows := 100
    totalColumns := 50
    fixedRowsTop := 0
    fixedRowsBottom := 0
    fixedColumnsStart := 3
    wtTable :=
      { getFirstVisibleRow := -1
        getLastVisibleRow := -1
        getFirstVisibleColumn := -1
        getLastVisibleColumn := -1
        rootElementOffset := { top := 0, left := 0 }
        tableRectRight := 0 }
    wtViewport := { getColumnHeaderHeight := 25, getRowHeaderWidth := 50 }
    wtSettings :=
      { rtlMode := false
        onBeforeViewportScrollHorizontally := fun column => column
        onBeforeViewportScrollVertically := fun row => row }
    rootWindow :=
      { getScrollTop := 0, getScrollLeft := 0, innerHeight := 600, innerWidth := 800,
        docOffsetWidth := 800 }
    topOverlay :=
      { mainTableScrollableElementIsRootWindow := false, sumCellSizes := fun _ _ => 23 }
    inlineStartOverlay :=
      { mainTableScrollableElementIsRootWindow := false, sumCellSizes := fun _ _ => 50 } }

/-- The table `exampleDao` with the given fully visible rows and columns. -/
def exampleDaoVisible (firstRow lastRow firstColumn lastColumn : Int) : ScrollDao :=
  { exampleDao with
    wtTable :=
      { exampleDao.wtTable with
        getFirstVisibleRow := firstRow
        getLastVisibleRow := lastRow
        getFirstVisibleColumn := firstColumn
        getLastVisibleColumn := lastColumn } }

/-- An environment whose DOM state is the current readings of the data access object and
whose overlays answer `moved` to every `scrollTo` without changing the readings. -/
def exampleDom (moved : Bool) : Dom ScrollDao :=
  { dataAccessObject := fun dao => dao
    inlineStartOverlayScrollTo := fun dao _ _ => (moved, dao)
    topOverlayScrollTo := fun dao _ _ => (moved, dao) }

/-- The table `dao` with both pre-scroll hooks replaced by `hook`. -/
def exampleDaoHooked (dao : ScrollDao) (hook : ℚ → ℚ) : ScrollDao :=
  { dao with
    wtSettings :=
      { dao.wtSettings with
        onBeforeViewportScrollHorizontally := hook
        onBeforeViewportScrollVertically := hook } }

/-- The exact sum `base + sumCellSizes(0, 1) + ... + sumCellSizes(count - 1, count)`, in
the arithmetic of the rationals. -/
def accumulatedSize (sumCellSizes : Int → Int → ℚ) (base : ℚ) (count : Nat) : ℚ :=
  base + ∑ i in Finset.range count, sumCellSizes i (i + 1)

/-- The quantity `S(k)` for rows, as an exact sum: the column header height plus the
heights of the rows `0` to `k`. -/
def rowsHeightThrough (dao : ScrollDao) (k : Nat) : ℚ :=
  accumulatedSize dao.topOverlay.sumCellSizes dao.wtViewport.getColumnHeaderHeight (k + 1)

/-- The number obtained from `base` by adding the sizes of the cells `0` to `count - 1`
one after the other with the operator `+`, every sum being rounded:
`(...((base + sumCellSizes(0, 1)) + sumCellSizes(1, 2)) ...) + sumCellSizes(count - 1, count)`. -/
def walkedSize (sumCellSizes : Int → Int → ℚ) (base : ℚ) : Nat → ℚ
  | 0 => base
  | count + 1 =>
    Number.add (walkedSize sumCellSizes base count) (sumCellSizes count (count + 1))

/-- The number `startOffset + size - windowScroll`, computed with the operators `+` and `-`
from left to right, where `size` is `walkedSize` through cell `k`: the position of the far
edge of cell `k` in the window, as a number. -/
def walkedEdge (sumCellSizes : Int → Int → ℚ) (startOffset windowScroll base : ℚ)
    (k : Nat) : ℚ :=
  Number.sub (Number.add startOffset (walkedSize sumCellSizes base (k + 1))) windowScroll

/-- The computed position of the bottom edge of row `k` in the window: the number
`rootElementOffset.top + S(k) - windowScrollTop`, where `S(k)` is the column header height
plus the heights of rows `0` to `k` and every `+` and `-` is rounded. -/
def rowBottomEdge (dao : ScrollDao) (k : Nat) : ℚ :=
  walkedEdge dao.topOverlay.sumCellSizes dao.wtTable.rootElementOffset.top
    dao.rootWindow.getScrollTop dao.wtViewport.getColumnHeaderHeight k

/-- The computed position of the far edge of column `k` in the window: the number
`inlineStartRootElementOffset + S(k) - |windowScrollLeft|`, where `S(k)` is the row header
width plus the widths of columns `0` to `k` and every `+` and `-` is rounded. -/
def columnEndEdge (dao : ScrollDao) (k : Nat) : ℚ :=
  walkedEdge dao.inlineStartOverlay.sumCellSizes (inlineStartRootElementOffset dao)
    |dao.rootWindow.getScrollLeft| dao.wtViewport.getRowHeaderWidth k

/-- A table of 5 rows (23 pixels each, header 25) and 4 columns (50 pixels each, header
50) scrolled by a window of 200 by 100 pixels, with the given document offset of its root
element and the given window scroll position. -/
def exampleDaoInWindow (top left scrollTop scrollLeft : ℚ) : ScrollDao :=
  { exampleDao with
    totalRows := 5
    totalColumns := 4
    fixedColumnsStart := 0
    wtTable :=
      { getFirstVisibleRow := 0
        getLastVisibleRow := 4
        getFirstVisibleColumn := 0
        getLastVisibleColumn := 3
        rootElementOffset := { top := top, left := left }
        tableRectRight := 0 }
    rootWindow :=
      { getScrollTop := scrollTop, getScrollLeft := scrollLeft, innerHeight := 100,
        innerWidth := 200, docOffsetWidth := 200 }
    topOverlay :=
      { mainTableScrollableElementIsRootWindow := true, sumCellSizes := fun _ _ => 23 }
    inlineStartOverlay :=
      { mainTableScrollableElementIsRootWindow := true, sumCellSizes := fun _ _ => 50 } }

/-- The window-scrolled table `exampleDaoInWindow` in RTL mode, with the given right edge
of the table, layout width of the document and window scroll position. -/
def exampleDaoRtl (tableRectRight docOffsetWidth scrollLeft : ℚ) : ScrollDao :=
  { exampleDaoInWindow 0 0 0 scrollLeft with
    wtSettings := { (exampleDaoInWindow 0 0 0 scrollLeft).wtSettings with rtlMode := true }
    wtTable :=
      { (exampleDaoInWindow 0 0 0 scrollLeft).wtTable with tableRectRight := tableRectRight }
    rootWindow :=
      { (exampleDaoInWindow 0 0 0 scrollLeft).rootWindow with
        docOffsetWidth := docOffsetWidth } }

/-- A window-scrolled table of 5 rows at the top offset `0.1`, with a column header of 25
pixels and rows of height `23.3`, in an unscrolled window of height 95.  The offset and
the row height are the binary64 values of the literals `0.1` and `23.3`. -/
def exampleDaoFractional : ScrollDao :=
  { exampleDaoInWindow (3602879701896397 / 36028797018963968) 0 0 0 with
    rootWindow :=
      { getScrollTop := 0, getScrollLeft := 0, innerHeight := 95, innerWidth := 200,
        docOffsetWidth := 200 }
    topOverlay :=
      { mainTableScrollableElementIsRootWindow := true
        sumCellSizes := fun _ _ => 6558366957358285 / 281474976710656 } }

/-! ## The entry guards -/

/-- The first `return false` of `scrollViewportHorizontally`. -/
theorem scrollViewportHorizontally_of_guard {σ : Type} (env : Dom σ) (w : σ) (self : Scroll)
    (column : ℚ) (snapToRight snapToLeft : Option Bool)
    (h : ¬ (env.dataAccessObject w).drawn ∨ ¬ Number.isInteger column ∨ column < 0
      ∨ column > (env.dataAccessObject w).totalColumns) :
    scrollViewportHorizontally env w self column snapToRight snapToLeft
      = { result := false, self := self, dom := w, calls := [] } := by
  unfold scrollViewportHorizontally
  simp only [if_pos h]

/-- The first `return false` of `scrollViewportVertically`. -/
theorem scrollViewportVertically_of_guard {σ : Type} (env : Dom σ) (w : σ) (self : Scroll)
    (row : ℚ) (snapToTop snapToBottom : Option Bool)
    (h : ¬ (env.dataAccessObject w).drawn ∨ ¬ Number.isInteger row ∨ row < 0
      ∨ row > (env.dataAccessObject w).totalRows) :
    scrollViewportVertically env w self row snapToTop snapToBottom
      = { result := false, self := self, dom := w, calls := [] } := by
  unfold scrollViewportVertically
  simp only [if_pos h]

/-- A drawn table and an integer target within `[0, total]` pass the entry guard. -/
theorem guard_passes {drawn : Bool} {target : ℚ} {total : Int} (hd : drawn = true)
    (hi : Number.isInteger target = true) (h0 : 0 ≤ target) (ht : target ≤ total) :
    ¬ (¬ drawn ∨ ¬ Number.isInteger target ∨ target < 0 ∨ target > total) := by
  rintro (h | h | h | h)
  · exact h hd
  · exact h hi
  · exact absurd h0 (not_le.mpr h)
  · exact absurd ht (not_le.mpr h)

/-- An integer, read as a number, satisfies `Number.isInteger`. -/
theorem isInteger_intCast (n : Int) : Number.isInteger (n : ℚ) = true := by
  simp [Number.isInteger]

/-- With an explicit snap hint `autoSnapping` is false. -/
theorem autoSnapping_eq_false (snapA snapB : Option Bool)
    (hs : snapA ≠ none ∨ snapB ≠ none) : (snapA.isNone && snapB.isNone) = false := by
  rcases hs with h | h
  · cases snapA <;> simp_all
  · cases snapB <;> simp_all

/-- The second `return false` of `scrollViewportHorizontally`: the frozen-band exemption. -/
theorem scrollViewportHorizontally_of_frozen {σ : Type} (env : Dom σ) (w : σ) (self : Scroll)
    (column : ℚ) (snapToRight snapToLeft : Option Bool)
    (hg : ¬ (¬ (env.dataAccessObject w).drawn ∨ ¬ Number.isInteger column ∨ column < 0
      ∨ column > (env.dataAccessObject w).totalColumns))
    (hx : (snapToRight.isNone && snapToLeft.isNone) = true ∧ column < (env.dataAccessObject w).fixedColumnsStart) :
    scrollViewportHorizontally env w self column snapToRight snapToLeft
      = { result := false, self := self, dom := w, calls := [] } := by
  unfold scrollViewportHorizontally
  simp only [if_neg hg, if_pos hx]

/-- The history branch of `scrollViewportHorizontally`: nothing is fully visible. -/
theorem scrollViewportHorizontally_of_noneVisible {σ : Type} (env : Dom σ) (w : σ)
    (self : Scroll) (column : ℚ) (snapToRight snapToLeft : Option Bool)
    (hg : ¬ (¬ (env.dataAccessObject w).drawn ∨ ¬ Number.isInteger column ∨ column < 0
      ∨ column > (env.dataAccessObject w).totalColumns))
    (hx : ¬ ((snapToRight.isNone && snapToLeft.isNone) = true ∧ column < (env.dataAccessObject w).fixedColumnsStart))
    (h1 : getFirstVisibleColumn (env.dataAccessObject w) = -1) :
    scrollViewportHorizontally env w self column snapToRight snapToLeft
      = scrollToColumn env w self column
          ((env.dataAccessObject w).wtSettings.onBeforeViewportScrollHorizontally column)
          (if (snapToRight.isNone && snapToLeft.isNone) = true then
            some (decide ((env.dataAccessObject w).wtSettings.onBeforeViewportScrollHorizontally column
              > self.lastScrolledColumnPos))
           else snapToRight) := by
  unfold scrollViewportHorizontally
  simp only [if_neg hg, if_neg hx, if_pos h1]

/-- The visible-range branch of `scrollViewportHorizontally` when its test succeeds. -/
theorem scrollViewportHorizontally_of_outside {σ : Type} (env : Dom σ) (w : σ)
    (self : Scroll) (column : ℚ) (snapToRight snapToLeft : Option Bool)
    (hg : ¬ (¬ (env.dataAccessObject w).drawn ∨ ¬ Number.isInteger column ∨ column < 0
      ∨ column > (env.dataAccessObject w).totalColumns))
    (hx : ¬ ((snapToRight.isNone && snapToLeft.isNone) = true ∧ column < (env.dataAccessObject w).fixedColumnsStart))
    (h1 : getFirstVisibleColumn (env.dataAccessObject w) ≠ -1)
    (h2 : (snapToRight.isNone && snapToLeft.isNone) = true
        ∧ ((env.dataAccessObject w).wtSettings.onBeforeViewportScrollHorizontally column
            < getFirstVisibleColumn (env.dataAccessObject w)
          ∨ (env.dataAccessObject w).wtSettings.onBeforeViewportScrollHorizontally column
            > getLastVisibleColumn (env.dataAccessObject w))
      ∨ ¬ (snapToRight.isNone && snapToLeft.isNone) = true) :
    scrollViewportHorizontally env w self column snapToRight snapToLeft
      = scrollToColumn env w self column
          ((env.dataAccessObject w).wtSettings.onBeforeViewportScrollHorizontally column)
          (if (snapToRight.isNone && snapToLeft.isNone) = true then
            some (decide ((env.dataAccessObject w).wtSettings.onBeforeViewportScrollHorizontally column
              > getLastVisibleColumn (env.dataAccessObject w)))
           else snapToRight) := by
  unfold scrollViewportHorizontally
  simp only [if_neg hg, if_neg hx, if_neg h1, if_pos h2]

/-- The visible-range branch of `scrollViewportHorizontally` when its test fails: only the hook
has been called. -/
theorem scrollViewportHorizontally_of_inside {σ : Type} (env : Dom σ) (w : σ)
    (self : Scroll) (column : ℚ) (snapToRight snapToLeft : Option Bool)
    (hg : ¬ (¬ (env.dataAccessObject w).drawn ∨ ¬ Number.isInteger column ∨ column < 0
      ∨ column > (env.dataAccessObject w).totalColumns))
    (hx : ¬ ((snapToRight.isNone && snapToLeft.isNone) = true ∧ column < (env.dataAccessObject w).fixedColumnsStart))
    (h1 : getFirstVisibleColumn (env.dataAccessObject w) ≠ -1)
    (h2 : ¬ ((snapToRight.isNone && snapToLeft.isNone) = true
        ∧ ((env.dataAccessObject w).wtSettings.onBeforeViewportScrollHorizontally column
            < getFirstVisibleColumn (env.dataAccessObject w)
          ∨ (env.dataAccessObject w).wtSettings.onBeforeViewportScrollHorizontally column
            > getLastVisibleColumn (env.dataAccessObject w))
      ∨ ¬ (snapToRight.isNone && snapToLeft.isNone) = true)) :
    scrollViewportHorizontally env w self column snapToRight snapToLeft
      = { result := false, self := self, dom := w,
          calls := [Call.onBeforeViewportScrollHorizontally column] } := by
  unfold scrollViewportHorizontally
  simp only [if_neg hg, if_neg hx, if_neg h1, if_neg h2]

/-- The second `return false` of `scrollViewportVertically`: the frozen-band exemption. -/
theorem scrollViewportVertically_of_frozen {σ : Type} (env : Dom σ) (w : σ) (self : Scroll)
    (row : ℚ) (snapToTop snapToBottom : Option Bool)
    (hg : ¬ (¬ (env.dataAccessObject w).drawn ∨ ¬ Number.isInteger row ∨ row < 0
      ∨ row > (env.dataAccessObject w).totalRows))
    (hx : (snapToTop.isNone && snapToBottom.isNone) = true ∧ (row < (env.dataAccessObject w).fixedRowsTop
        ∨ row > (((env.dataAccessObject w).totalRows - (env.dataAccessObject w).fixedRowsBottom - 1
          : Int) : ℚ))) :
    scrollViewportVertically env w self row snapToTop snapToBottom
      = { result := false, self := self, dom := w, calls := [] } := by
  unfold scrollViewportVertically
  simp only [if_neg hg, if_pos hx]

/-- The history branch of `scrollViewportVertically`: nothing is fully visible. -/
theorem scrollViewportVertically_of_noneVisible {σ : Type} (env : Dom σ) (w : σ)
    (self : Scroll) (row : ℚ) (snapToTop snapToBottom : Option Bool)
    (hg : ¬ (¬ (env.dataAccessObject w).drawn ∨ ¬ Number.isInteger row ∨ row < 0
      ∨ row > (env.dataAccessObject w).totalRows))
    (hx : ¬ ((snapToTop.isNone && snapToBottom.isNone) = true ∧ (row < (env.dataAccessObject w).fixedRowsTop
        ∨ row > (((env.dataAccessObject w).totalRows - (env.dataAccessObject w).fixedRowsBottom - 1
          : Int) : ℚ))))
    (h1 : getFirstVisibleRow (env.dataAccessObject w) = -1) :
    scrollViewportVertically env w self row snapToTop snapToBottom
      = scrollToRow env w self row
          ((env.dataAccessObject w).wtSettings.onBeforeViewportScrollVertically row)
          (if (snapToTop.isNone && snapToBottom.isNone) = true then
            some (decide ((env.dataAccessObject w).wtSettings.onBeforeViewportScrollVertically row
              > self.lastScrolledRowPos))
           else snapToBottom) := by
  unfold scrollViewportVertically
  simp only [if_neg hg, if_neg hx, if_pos h1]

/-- The visible-range branch of `scrollViewportVertically` when its test succeeds. -/
theorem scrollViewportVertically_of_outside {σ : Type} (env : Dom σ) (w : σ)
    (self : Scroll) (row : ℚ) (snapToTop snapToBottom : Option Bool)
    (hg : ¬ (¬ (env.dataAccessObject w).drawn ∨ ¬ Number.isInteger row ∨ row < 0
      ∨ row > (env.dataAccessObject w).totalRows))
    (hx : ¬ ((snapToTop.isNone && snapToBottom.isNone) = true ∧ (row < (env.dataAccessObject w).fixedRowsTop
        ∨ row > (((env.dataAccessObject w).totalRows - (env.dataAccessObject w).fixedRowsBottom - 1
          : Int) : ℚ))))
    (h1 : getFirstVisibleRow (env.dataAccessObject w) ≠ -1)
    (h2 : (snapToTop.isNone && snapToBottom.isNone) = true
        ∧ ((env.dataAccessObject w).wtSettings.onBeforeViewportScrollVertically row
            < getFirstVisibleRow (env.dataAccessObject w)
          ∨ (env.dataAccessObject w).wtSettings.onBeforeViewportScrollVertically row
            > getLastVisibleRow (env.dataAccessObject w))
      ∨ ¬ (snapToTop.isNone && snapToBottom.isNone) = true) :
    scrollViewportVertically env w self row snapToTop snapToBottom
      = scrollToRow env w self row
          ((env.dataAccessObject w).wtSettings.onBeforeViewportScrollVertically row)
          (if (snapToTop.isNone && snapToBottom.isNone) = true then
            some (decide ((env.dataAccessObject w).wtSettings.onBeforeViewportScrollVertically row
              > getLastVisibleRow (env.dataAccessObject w)))
           else snapToBottom) := by
  unfold scrollViewportVertically
  simp only [if_neg hg, if_neg hx, if_neg h1, if_pos h2]

/-- The visible-range branch of `scrollViewportVertically` when its test fails: only the hook
has been called. -/
theorem scrollViewportVertically_of_inside {σ : Type} (env : Dom σ) (w : σ)
    (self : Scroll) (row : ℚ) (snapToTop snapToBottom : Option Bool)
    (hg : ¬ (¬ (env.dataAccessObject w).drawn ∨ ¬ Number.isInteger row ∨ row < 0
      ∨ row > (env.dataAccessObject w).totalRows))
    (hx : ¬ ((snapToTop.isNone && snapToBottom.isNone) = true ∧ (row < (env.dataAccessObject w).fixedRowsTop
        ∨ row > (((env.dataAccessObject w).totalRows - (env.dataAccessObject w).fixedRowsBottom - 1
          : Int) : ℚ))))
    (h1 : getFirstVisibleRow (env.dataAccessObject w) ≠ -1)
    (h2 : ¬ ((snapToTop.isNone && snapToBottom.isNone) = true
        ∧ ((env.dataAccessObject w).wtSettings.onBeforeViewportScrollVertically row
            < getFirstVisibleRow (env.dataAccessObject w)
          ∨ (env.dataAccessObject w).wtSettings.onBeforeViewportScrollVertically row
            > getLastVisibleRow (env.dataAccessObject w))
      ∨ ¬ (snapToTop.isNone && snapToBottom.isNone) = true)) :
    scrollViewportVertically env w self row snapToTop snapToBottom
      = { result := false, self := self, dom := w,
          calls := [Call.onBeforeViewportScrollVertically row] } := by
  unfold scrollViewportVertically
  simp only [if_neg hg, if_neg hx, if_neg h1, if_neg h2]

/-- Every call of `scrollViewportHorizontally` ends in one of three ways: nothing was
called, only the hook was called, or the overlay was asked to scroll. -/
theorem scrollViewportHorizontally_cases {σ : Type} (env : Dom σ) (w : σ) (self : Scroll)
    (column : ℚ) (snapToRight snapToLeft : Option Bool) :
    scrollViewportHorizontally env w self column snapToRight snapToLeft
        = { result := false, self := self, dom := w, calls := [] }
    ∨ scrollViewportHorizontally env w self column snapToRight snapToLeft
        = { result := false, self := self, dom := w,
            calls := [.onBeforeViewportScrollHorizontally column] }
    ∨ ∃ flag, scrollViewportHorizontally env w self column snapToRight snapToLeft
        = scrollToColumn env w self column
            ((env.dataAccessObject w).wtSettings.onBeforeViewportScrollHorizontally column)
            flag := by
  by_cases hg : ¬ (env.dataAccessObject w).drawn ∨ ¬ Number.isInteger column ∨ column < 0
      ∨ column > (env.dataAccessObject w).totalColumns
  · exact Or.inl (scrollViewportHorizontally_of_guard env w self column _ _ hg)
  by_cases hx : (snapToRight.isNone && snapToLeft.isNone) = true
      ∧ column < (env.dataAccessObject w).fixedColumnsStart
  · exact Or.inl (scrollViewportHorizontally_of_frozen env w self column _ _ hg hx)
  by_cases h1 : getFirstVisibleColumn (env.dataAccessObject w) = -1
  · exact Or.inr (Or.inr ⟨_, scrollViewportHorizontally_of_noneVisible env w self column
      _ _ hg hx h1⟩)
  by_cases h2 : (snapToRight.isNone && snapToLeft.isNone) = true
      ∧ ((env.dataAccessObject w).wtSettings.onBeforeViewportScrollHorizontally column
          < getFirstVisibleColumn (env.dataAccessObject w)
        ∨ (env.dataAccessObject w).wtSettings.onBeforeViewportScrollHorizontally column
          > getLastVisibleColumn (env.dataAccessObject w))
      ∨ ¬ (snapToRight.isNone && snapToLeft.isNone) = true
  · exact Or.inr (Or.inr ⟨_, scrollViewportHorizontally_of_outside env w self column
      _ _ hg hx h1 h2⟩)
  · exact Or.inr (Or.inl (scrollViewportHorizontally_of_inside env w self column
      _ _ hg hx h1 h2))

/-- Every call of `scrollViewportVertically` ends in one of three ways: nothing was
called, only the hook was called, or the overlay was asked to scroll. -/
theorem scrollViewportVertically_cases {σ : Type} (env : Dom σ) (w : σ) (self : Scroll)
    (row : ℚ) (snapToTop snapToBottom : Option Bool) :
    scrollViewportVertically env w self row snapToTop snapToBottom
        = { result := false, self := self, dom := w, calls := [] }
    ∨ scrollViewportVertically env w self row snapToTop snapToBottom
        = { result := false, self := self, dom := w,
            calls := [.onBeforeViewportScrollVertically row] }
    ∨ ∃ flag, scrollViewportVertically env w self row snapToTop snapToBottom
        = scrollToRow env w self row
            ((env.dataAccessObject w).wtSettings.onBeforeViewportScrollVertically row)
            flag := by
  by_cases hg : ¬ (env.dataAccessObject w).drawn ∨ ¬ Number.isInteger row ∨ row < 0
      ∨ row > (env.dataAccessObject w).totalRows
  · exact Or.inl (scrollViewportVertically_of_guard env w self row _ _ hg)
  by_cases hx : (snapToTop.isNone && snapToBottom.isNone) = true
      ∧ (row < (env.dataAccessObject w).fixedRowsTop
        ∨ row > (((env.dataAccessObject w).totalRows
          - (env.dataAccessObject w).fixedRowsBottom - 1 : Int) : ℚ))
  · exact Or.inl (scrollViewportVertically_of_frozen env w self row _ _ hg hx)
  by_cases h1 : getFirstVisibleRow (env.dataAccessObject w) = -1
  · exact Or.inr (Or.inr ⟨_, scrollViewportVertically_of_noneVisible env w self row
      _ _ hg hx h1⟩)
  by_cases h2 : (snapToTop.isNone && snapToBottom.isNone) = true
      ∧ ((env.dataAccessObject w).wtSettings.onBeforeViewportScrollVertically row
          < getFirstVisibleRow (env.dataAccessObject w)
        ∨ (env.dataAccessObject w).wtSettings.onBeforeViewportScrollVertically row
          > getLastVisibleRow (env.dataAccessObject w))
      ∨ ¬ (snapToTop.isNone && snapToBottom.isNone) = true
  · exact Or.inr (Or.inr ⟨_, scrollViewportVertically_of_outside env w self row
      _ _ hg hx h1 h2⟩)
  · exact Or.inr (Or.inl (scrollViewportVertically_of_inside env w self row
      _ _ hg hx h1 h2))

/-- With an explicit snap hint a call that passes the entry guard always reaches
`inlineStartOverlay.scrollTo`, with the caller's `snapToRight` as flag. -/
theorem scrollViewportHorizontally_of_explicit {σ : Type} (env : Dom σ) (w : σ)
    (self : Scroll) (column : ℚ) (snapToRight snapToLeft : Option Bool)
    (hg : ¬ (¬ (env.dataAccessObject w).drawn ∨ ¬ Number.isInteger column ∨ column < 0
      ∨ column > (env.dataAccessObject w).totalColumns))
    (hs : snapToRight ≠ none ∨ snapToLeft ≠ none) :
    scrollViewportHorizontally env w self column snapToRight snapToLeft
      = scrollToColumn env w self column
          ((env.dataAccessObject w).wtSettings.onBeforeViewportScrollHorizontally column)
          snapToRight := by
  have ha := autoSnapping_eq_false snapToRight snapToLeft hs
  have hx : ¬ ((snapToRight.isNone && snapToLeft.isNone) = true
      ∧ column < (env.dataAccessObject w).fixedColumnsStart) := by
    simp [ha]
  by_cases h1 : getFirstVisibleColumn (env.dataAccessObject w) = -1
  · rw [scrollViewportHorizontally_of_noneVisible env w self column _ _ hg hx h1]
    simp [ha]
  · rw [scrollViewportHorizontally_of_outside env w self column _ _ hg hx h1
      (Or.inr (by simp [ha]))]
    simp [ha]

/-- With an explicit snap hint a call that passes the entry guard always reaches
`topOverlay.scrollTo`, with the caller's `snapToBottom` as flag. -/
theorem scrollViewportVertically_of_explicit {σ : Type} (env : Dom σ) (w : σ)
    (self : Scroll) (row : ℚ) (snapToTop snapToBottom : Option Bool)
    (hg : ¬ (¬ (env.dataAccessObject w).drawn ∨ ¬ Number.isInteger row ∨ row < 0
      ∨ row > (env.dataAccessObject w).totalRows))
    (hs : snapToTop ≠ none ∨ snapToBottom ≠ none) :
    scrollViewportVertically env w self row snapToTop snapToBottom
      = scrollToRow env w self row
          ((env.dataAccessObject w).wtSettings.onBeforeViewportScrollVertically row)
          snapToBottom := by
  have ha := autoSnapping_eq_false snapToTop snapToBottom hs
  have hx : ¬ ((snapToTop.isNone && snapToBottom.isNone) = true
      ∧ (row < (env.dataAccessObject w).fixedRowsTop
        ∨ row > (((env.dataAccessObject w).totalRows
          - (env.dataAccessObject w).fixedRowsBottom - 1 : Int) : ℚ))) := by
    simp [ha]
  by_cases h1 : getFirstVisibleRow (env.dataAccessObject w) = -1
  · rw [scrollViewportVertically_of_noneVisible env w self row _ _ hg hx h1]
    simp [ha]
  · rw [scrollViewportVertically_of_outside env w self row _ _ hg hx h1
      (Or.inr (by simp [ha]))]
    simp [ha]

/-- The history branch under auto-snapping, for a valid unfrozen column on a drawn table
with no fully visible column. -/
theorem scrollViewportHorizontally_of_history {σ : Type} (env : Dom σ) (w : σ)
    (self : Scroll) (column : ℚ)
    (hd : (env.dataAccessObject w).drawn = true) (hi : Number.isInteger column = true)
    (h0 : 0 ≤ column) (ht : column ≤ (env.dataAccessObject w).totalColumns)
    (hf : ((env.dataAccessObject w).fixedColumnsStart : ℚ) ≤ column)
    (h1 : getFirstVisibleColumn (env.dataAccessObject w) = -1) :
    scrollViewportHorizontally env w self column none none
      = scrollToColumn env w self column
          ((env.dataAccessObject w).wtSettings.onBeforeViewportScrollHorizontally column)
          (some (decide
            ((env.dataAccessObject w).wtSettings.onBeforeViewportScrollHorizontally column
              > self.lastScrolledColumnPos))) := by
  rw [scrollViewportHorizontally_of_noneVisible env w self column none none
    (guard_passes hd hi h0 ht) (fun hx => absurd hf (not_le.mpr hx.2)) h1]
  rfl

/-- The history branch under auto-snapping, for a valid unfrozen row on a drawn table
with no fully visible row. -/
theorem scrollViewportVertically_of_history {σ : Type} (env : Dom σ) (w : σ)
    (self : Scroll) (row : ℚ)
    (hd : (env.dataAccessObject w).drawn = true) (hi : Number.isInteger row = true)
    (h0 : 0 ≤ row) (ht : row ≤ (env.dataAccessObject w).totalRows)
    (hf : ((env.dataAccessObject w).fixedRowsTop : ℚ) ≤ row)
    (hb : row ≤ (((env.dataAccessObject w).totalRows
      - (env.dataAccessObject w).fixedRowsBottom - 1 : Int) : ℚ))
    (h1 : getFirstVisibleRow (env.dataAccessObject w) = -1) :
    scrollViewportVertically env w self row none none
      = scrollToRow env w self row
          ((env.dataAccessObject w).wtSettings.onBeforeViewportScrollVertically row)
          (some (decide
            ((env.dataAccessObject w).wtSettings.onBeforeViewportScrollVertically row
              > self.lastScrolledRowPos))) := by
  rw [scrollViewportVertically_of_noneVisible env w self row none none
    (guard_passes hd hi h0 ht)
    (fun hx => hx.2.elim (fun h => absurd hf (not_le.mpr h))
      (fun h => absurd hb (not_le.mpr h))) h1]
  rfl

/-! ## Tables scrolled in their own container -/

/-- In a table that is not scrolled by the window, `getLastVisibleRow` is the value of
`wtTable.getLastVisibleRow()`. -/
theorem getLastVisibleRow_of_container (dao : ScrollDao)
    (h : dao.topOverlay.mainTableScrollableElementIsRootWindow = false) :
    getLastVisibleRow dao = dao.wtTable.getLastVisibleRow := by
  unfold getLastVisibleRow
  simp [h]

/-- In a table that is not scrolled by the window, `getLastVisibleColumn` is the value of
`wtTable.getLastVisibleColumn()`. -/
theorem getLastVisibleColumn_of_container (dao : ScrollDao)
    (h : dao.inlineStartOverlay.mainTableScrollableElementIsRootWindow = false) :
    getLastVisibleColumn dao = dao.wtTable.getLastVisibleColumn := by
  unfold getLastVisibleColumn
  simp [h]

/-! ## Rounding -/

/-- An integer within one half of `s` is the rounding of `s`. -/
theorem roundHalfEven_eq_of_close (s : ℚ) (m : Int) (h : |s - m| < 1 / 2) :
    roundHalfEven s = m := by
  rw [abs_lt] at h
  unfold roundHalfEven
  by_cases hs : (m : ℚ) ≤ s
  · have hf : ⌊s⌋ = m := Int.floor_eq_iff.mpr ⟨hs, by linarith⟩
    rw [hf, if_pos (by linarith)]
  · have hf : ⌊s⌋ = m - 1 :=
      Int.floor_eq_iff.mpr ⟨by push_cast; linarith, by push_cast; linarith⟩
    rw [hf]
    push_cast
    rw [if_neg (by linarith), if_pos (by linarith)]
    ring

/-- The binary exponent of `x` is determined by the two powers of two around `|x|`. -/
theorem log_two_eq_of_bounds (x : ℚ) (e : Int) (h1 : (2 : ℚ) ^ e ≤ |x|)
    (h2 : |x| < (2 : ℚ) ^ (e + 1)) : Int.log 2 |x| = e := by
  have hpos : 0 < |x| := lt_of_lt_of_le (by positivity) h1
  apply le_antisymm
  · have key : |x| < ((2 : ℕ) : ℚ) ^ (e + 1) := by exact_mod_cast h2
    have := (Int.lt_zpow_iff_log_lt (by norm_num : 1 < 2) hpos).mp key
    omega
  · have key : ((2 : ℕ) : ℚ) ^ e ≤ |x| := by exact_mod_cast h1
    exact (Int.zpow_le_iff_le_log (by norm_num : 1 < 2) hpos).mp key

/-- An even integer at distance one half from `s` is the rounding of `s`. -/
theorem roundHalfEven_eq_of_tie (s : ℚ) (m : Int) (h : s - m = 1 / 2 ∨ m - s = 1 / 2)
    (heven : m % 2 = 0) : roundHalfEven s = m := by
  unfold roundHalfEven
  rcases h with h | h
  · have hf : ⌊s⌋ = m := Int.floor_eq_iff.mpr ⟨by linarith, by linarith⟩
    rw [hf, if_neg (by linarith), if_neg (by linarith), if_pos heven]
  · have hf : ⌊s⌋ = m - 1 :=
      Int.floor_eq_iff.mpr ⟨by push_cast; linarith, by push_cast; linarith⟩
    have hodd : ¬ (m - 1) % 2 = 0 := by omega
    rw [hf]
    push_cast
    rw [if_neg (by linarith), if_neg (by linarith), if_neg hodd]
    ring

/-- The value of `binary64 x` from the exponent `e` of `x` and the rounding `m` of the
scaled significand. -/
theorem binary64_eq_of_round (x : ℚ) (e m : Int) (h1 : (2 : ℚ) ^ e ≤ |x|)
    (h2 : |x| < (2 : ℚ) ^ (e + 1)) (hm : roundHalfEven (x * 2 ^ (52 - e)) = m) :
    binary64 x = m * 2 ^ (e - 52) := by
  have hpos : 0 < |x| := lt_of_lt_of_le (by positivity) h1
  have hx : x ≠ 0 := abs_pos.mp hpos
  unfold binary64
  rw [if_neg hx, log_two_eq_of_bounds x e h1 h2, hm]

/-- The value of `binary64 x` from the exponent `e` of `x` and an integer `m` within one
half of the scaled significand. -/
theorem binary64_eq_of_close (x : ℚ) (e m : Int) (h1 : (2 : ℚ) ^ e ≤ |x|)
    (h2 : |x| < (2 : ℚ) ^ (e + 1)) (hm : |x * 2 ^ (52 - e) - m| < 1 / 2) :
    binary64 x = m * 2 ^ (e - 52) :=
  binary64_eq_of_round x e m h1 h2 (roundHalfEven_eq_of_close _ m hm)

/-- The integers below `2 ^ 53` in absolute value are binary64 values. -/
theorem binary64_intCast (n : Int) (h : |n| < 2 ^ 53) : binary64 (n : ℚ) = n := by
  by_cases hn : n = 0
  · subst hn
    simp [binary64]
  have hpos : (0 : ℚ) < |(n : ℚ)| := abs_pos.mpr (by exact_mod_cast hn)
  have hlo : (2 : ℚ) ^ Int.log 2 |(n : ℚ)| ≤ |(n : ℚ)| := by
    have := Int.zpow_log_le_self (by norm_num : 1 < 2) hpos
    exact_mod_cast this
  have hhi : |(n : ℚ)| < (2 : ℚ) ^ (Int.log 2 |(n : ℚ)| + 1) := by
    have := Int.lt_zpow_succ_log_self (by norm_num : 1 < 2) |(n : ℚ)|
    exact_mod_cast this
  have he : Int.log 2 |(n : ℚ)| ≤ 52 := by
    have hnat : |(n : ℚ)| < (2 : ℚ) ^ (53 : ℕ) := by exact_mod_cast h
    have key : |(n : ℚ)| < ((2 : ℕ) : ℚ) ^ ((53 : ℕ) : Int) := by
      rw [zpow_natCast]
      exact_mod_cast hnat
    have := (Int.lt_zpow_iff_log_lt (by norm_num : 1 < 2) hpos).mp key
    omega
  obtain ⟨k, hk⟩ : ∃ k : ℕ, 52 - Int.log 2 |(n : ℚ)| = k :=
    ⟨(52 - Int.log 2 |(n : ℚ)|).toNat, by omega⟩
  have hm : |(n : ℚ) * 2 ^ (52 - Int.log 2 |(n : ℚ)|) - ((n * 2 ^ k : Int) : ℚ)|
      < 1 / 2 := by
    rw [hk, zpow_natCast]
    push_cast
    simp
  rw [binary64_eq_of_close _ _ _ hlo hhi hm]
  have hk2 : Int.log 2 |(n : ℚ)| - 52 = -(k : Int) := by omega
  rw [hk2, zpow_neg, zpow_natCast]
  push_cast
  field_simp

/-- The numerals below `2 ^ 53` are binary64 values. -/
theorem binary64_ofNat (n : ℕ) [n.AtLeastTwo] (h : n < 2 ^ 53) :
    binary64 (OfNat.ofNat n) = OfNat.ofNat n := by
  have := binary64_intCast (n : Int) (by
    rw [abs_of_nonneg (by positivity)]
    exact_mod_cast h)
  simpa using this

/-- The value of `a + b` from the exponent `e` of the exact sum and the rounding `m` of
its scaled significand. -/
theorem Number.add_eq_of_round (a b : ℚ) (e m : Int) (h1 : (2 : ℚ) ^ e ≤ |a + b|)
    (h2 : |a + b| < (2 : ℚ) ^ (e + 1)) (hm : roundHalfEven ((a + b) * 2 ^ (52 - e)) = m) :
    Number.add a b = m * 2 ^ (e - 52) :=
  binary64_eq_of_round (a + b) e m h1 h2 hm

/-- The value of `a - b` from the exponent `e` of the exact difference and the rounding
`m` of its scaled significand. -/
theorem Number.sub_eq_of_round (a b : ℚ) (e m : Int) (h1 : (2 : ℚ) ^ e ≤ |a - b|)
    (h2 : |a - b| < (2 : ℚ) ^ (e + 1)) (hm : roundHalfEven ((a - b) * 2 ^ (52 - e)) = m) :
    Number.sub a b = m * 2 ^ (e - 52) :=
  binary64_eq_of_round (a - b) e m h1 h2 hm

/-- On integers whose sum is below `2 ^ 53` in absolute value, `+` is exact. -/
theorem Number.add_intCast (a b : Int) (h : |a + b| < 2 ^ 53) :
    Number.add (a : ℚ) (b : ℚ) = ((a + b : Int) : ℚ) := by
  unfold Number.add
  rw [← Int.cast_add]
  exact binary64_intCast (a + b) h

/-- On integers whose difference is below `2 ^ 53` in absolute value, `-` is exact. -/
theorem Number.sub_intCast (a b : Int) (h : |a - b| < 2 ^ 53) :
    Number.sub (a : ℚ) (b : ℚ) = ((a - b : Int) : ℚ) := by
  unfold Number.sub
  rw [← Int.cast_sub]
  exact binary64_intCast (a - b) h

/-! ## The pixel walk -/

/-- One more cell: `walkedSize` after `count + 1` cells, with the arguments the loop
passes to `sumCellSizes`. -/
theorem walkedSize_succ (sumCellSizes : Int → Int → ℚ) (base : ℚ) (count : Nat) :
    walkedSize sumCellSizes base (count + 1)
      = Number.add (walkedSize sumCellSizes base count)
          (sumCellSizes ((count : Int) + 1 - 1) (count + 1)) := by
  rw [add_sub_cancel_right]
  rfl

/-- The walk breaks at the first cell `k`, among the cells it still visits, whose computed
edge reaches the window size, and yields `k - 1`. -/
theorem overflowWalk_eq_some (sumCellSizes : Int → Int → ℚ)
    (startOffset windowScroll windowSize base : ℚ) (remaining : Nat) :
    ∀ (j k : Nat), j ≤ k → k < j + remaining →
      walkedEdge sumCellSizes startOffset windowScroll base k ≥ windowSize →
      (∀ i, j ≤ i → i < k →
        walkedEdge sumCellSizes startOffset windowScroll base i < windowSize) →
      overflowWalk sumCellSizes startOffset windowScroll windowSize remaining ((j : Int) + 1)
          (walkedSize sumCellSizes base j)
        = some ((k : Int) - 1) := by
  induction remaining with
  | zero =>
    intro j k hjk hk
    omega
  | succ n ih =>
    intro j k hjk hk hov hmin
    unfold overflowWalk
    simp only [← walkedSize_succ]
    by_cases hj : walkedEdge sumCellSizes startOffset windowScroll base j ≥ windowSize
    · have hj2 : Number.sub (Number.add startOffset (walkedSize sumCellSizes base (j + 1)))
          windowScroll ≥ windowSize := hj
      rw [if_pos hj2]
      have hkj : k = j := by
        by_contra hne
        exact absurd hj (not_le.mpr (hmin j le_rfl (by omega)))
      subst hkj
      congr 1
      ring
    · have hj2 : ¬ Number.sub (Number.add startOffset (walkedSize sumCellSizes base (j + 1)))
          windowScroll ≥ windowSize := hj
      rw [if_neg hj2]
      have hlt : j < k := by
        rcases Nat.lt_or_ge j k with h | h
        · exact h
        · have hkj : k = j := by omega
          subst hkj
          exact absurd hov hj
      have := ih (j + 1) k hlt (by omega) hov (fun i hi hik => hmin i (by omega) hik)
      rw [← this]
      push_cast
      rfl

/-- The walk ends without a `break` when no cell it visits has a computed edge that
reaches the window size. -/
theorem overflowWalk_eq_none (sumCellSizes : Int → Int → ℚ)
    (startOffset windowScroll windowSize base : ℚ) (remaining : Nat) :
    ∀ (j : Nat),
      (∀ i, j ≤ i → i < j + remaining →
        walkedEdge sumCellSizes startOffset windowScroll base i < windowSize) →
      overflowWalk sumCellSizes startOffset windowScroll windowSize remaining ((j : Int) + 1)
          (walkedSize sumCellSizes base j)
        = none := by
  induction remaining with
  | zero =>
    intro j _
    rfl
  | succ n ih =>
    intro j hall
    unfold overflowWalk
    simp only [← walkedSize_succ]
    have hj2 : ¬ Number.sub (Number.add startOffset (walkedSize sumCellSizes base (j + 1)))
        windowScroll ≥ windowSize := not_le.mpr (hall j le_rfl (by omega))
    rw [if_neg hj2]
    have := ih (j + 1) (fun i hi hik => hall i (by omega) (by omega))
    rw [← this]
    push_cast
    rfl

/-- The walk of a whole axis, started as in the source (`row = 1`, size `base`): it breaks
at the first cell whose computed edge reaches the window size, if there is one among the
`total` cells, and otherwise ends without a `break`. -/
theorem overflowWalk_whole_axis (sumCellSizes : Int → Int → ℚ)
    (startOffset windowScroll windowSize base : ℚ) (total : Int) :
    ((∃ k : Nat, (k : Int) < total
        ∧ walkedEdge sumCellSizes startOffset windowScroll base k ≥ windowSize) →
      ∃ k0 : Nat, (k0 : Int) < total
        ∧ walkedEdge sumCellSizes startOffset windowScroll base k0 ≥ windowSize
        ∧ (∀ j : Nat, j < k0 →
          walkedEdge sumCellSizes startOffset windowScroll base j < windowSize)
        ∧ overflowWalk sumCellSizes startOffset windowScroll windowSize total.toNat 1 base
          = some ((k0 : Int) - 1))
    ∧ ((∀ k : Nat, (k : Int) < total →
        walkedEdge sumCellSizes startOffset windowScroll base k < windowSize) →
      overflowWalk sumCellSizes startOffset windowScroll windowSize total.toNat 1 base
        = none) := by
  constructor
  · intro hex
    classical
    have hmin : ∀ j : Nat, j < Nat.find hex →
        walkedEdge sumCellSizes startOffset windowScroll base j < windowSize := by
      intro j hj
      have hnot := Nat.find_min hex hj
      have hjt : (j : Int) < total := by
        have := (Nat.find_spec hex).1
        omega
      exact not_le.mp fun hle => hnot ⟨hjt, hle⟩
    refine ⟨Nat.find hex, (Nat.find_spec hex).1, (Nat.find_spec hex).2, hmin, ?_⟩
    have hk : Nat.find hex < 0 + total.toNat := by
      have := (Nat.find_spec hex).1
      omega
    have := overflowWalk_eq_some sumCellSizes startOffset windowScroll windowSize base
      total.toNat 0 (Nat.find hex) (Nat.zero_le _) hk (Nat.find_spec hex).2
      (fun i _ hi => hmin i hi)
    simpa [walkedSize] using this
  · intro hall
    have := overflowWalk_eq_none sumCellSizes startOffset windowScroll windowSize base
      total.toNat 0 (fun i _ hi => hall i (by omega))
    simpa [walkedSize] using this

/-- In a window-scrolled table whose top offset exceeds the window scroll,
`getLastVisibleRow` is the row at which the walk breaks. -/
theorem getLastVisibleRow_of_break (dao : ScrollDao) (row : Int)
    (hw : dao.topOverlay.mainTableScrollableElementIsRootWindow = true)
    (hgt : dao.wtTable.rootElementOffset.top > dao.rootWindow.getScrollTop)
    (h : overflowWalk dao.topOverlay.sumCellSizes dao.wtTable.rootElementOffset.top
      dao.rootWindow.getScrollTop dao.rootWindow.innerHeight dao.totalRows.toNat 1
      dao.wtViewport.getColumnHeaderHeight = some row) :
    getLastVisibleRow dao = row := by
  unfold getLastVisibleRow
  simp only [hw, hgt, if_true, h]

/-- In a window-scrolled table whose top offset exceeds the window scroll,
`getLastVisibleRow` is the value of `wtTable.getLastVisibleRow()` when the walk does not
break. -/
theorem getLastVisibleRow_of_no_break (dao : ScrollDao)
    (hw : dao.topOverlay.mainTableScrollableElementIsRootWindow = true)
    (hgt : dao.wtTable.rootElementOffset.top > dao.rootWindow.getScrollTop)
    (h : overflowWalk dao.topOverlay.sumCellSizes dao.wtTable.rootElementOffset.top
      dao.rootWindow.getScrollTop dao.rootWindow.innerHeight dao.totalRows.toNat 1
      dao.wtViewport.getColumnHeaderHeight = none) :
    getLastVisibleRow dao = dao.wtTable.getLastVisibleRow := by
  unfold getLastVisibleRow
  simp only [hw, hgt, if_true, h]

/-- In a window-scrolled table whose inline-start offset exceeds the window scroll,
`getLastVisibleColumn` is the column at which the walk breaks. -/
theorem getLastVisibleColumn_of_break (dao : ScrollDao) (column : Int)
    (hw : dao.inlineStartOverlay.mainTableScrollableElementIsRootWindow = true)
    (hgt : inlineStartRootElementOffset dao > |dao.rootWindow.getScrollLeft|)
    (h : overflowWalk dao.inlineStartOverlay.sumCellSizes (inlineStartRootElementOffset dao)
      |dao.rootWindow.getScrollLeft| dao.rootWindow.innerWidth dao.totalColumns.toNat 1
      dao.wtViewport.getRowHeaderWidth = some column) :
    getLastVisibleColumn dao = column := by
  unfold getLastVisibleColumn
  simp only [hw, hgt, if_true, h]

/-- In a window-scrolled table whose inline-start offset exceeds the window scroll,
`getLastVisibleColumn` is the value of `wtTable.getLastVisibleColumn()` when the walk does
not break. -/
theorem getLastVisibleColumn_of_no_break (dao : ScrollDao)
    (hw : dao.inlineStartOverlay.mainTableScrollableElementIsRootWindow = true)
    (hgt : inlineStartRootElementOffset dao > |dao.rootWindow.getScrollLeft|)
    (h : overflowWalk dao.inlineStartOverlay.sumCellSizes (inlineStartRootElementOffset dao)
      |dao.rootWindow.getScrollLeft| dao.rootWindow.innerWidth dao.totalColumns.toNat 1
      dao.wtViewport.getRowHeaderWidth = none) :
    getLastVisibleColumn dao = dao.wtTable.getLastVisibleColumn := by
  unfold getLastVisibleColumn
  simp only [hw, hgt, if_true, h]

/-- The computed bottom edges of the rows 0 to 3 of `exampleDaoFractional`: the numbers
`48.4`, `71.69999999999999`, `94.99999999999999` and `118.29999999999998`. -/
theorem rowBottomEdge_exampleDaoFractional :
    rowBottomEdge exampleDaoFractional 0 = 6811694436397875 / 140737488355328
    ∧ rowBottomEdge exampleDaoFractional 1 = 1261359739384627 / 17592186044416
    ∧ rowBottomEdge exampleDaoFractional 2 = 6685030696878079 / 70368744177664
    ∧ rowBottomEdge exampleDaoFractional 3 = 4162311218108825 / 35184372088832 := by
  have hS0 : Number.add 25 (6558366957358285 / 281474976710656)
      = (3398810343781171 / 70368744177664) := by
    rw [Number.add_eq_of_round 25
      (6558366957358285 / 281474976710656) (5) 6797620687562342
      (by norm_num [abs_of_pos]) (by norm_num [abs_of_pos])
      (roundHalfEven_eq_of_tie _ _ (by norm_num) (by norm_num))]
    norm_num
  have hA0 : Number.add (3602879701896397 / 36028797018963968) (3398810343781171 / 70368744177664)
      = (6811694436397875 / 140737488355328) := by
    rw [Number.add_eq_of_round (3602879701896397 / 36028797018963968)
      (3398810343781171 / 70368744177664) (5) 6811694436397875
      (by norm_num [abs_of_pos]) (by norm_num [abs_of_pos])
      (roundHalfEven_eq_of_close _ _ (by norm_num [abs_lt]))]
    norm_num
  have hE0 : Number.sub (6811694436397875 / 140737488355328) 0
      = (6811694436397875 / 140737488355328) := by
    rw [Number.sub_eq_of_round (6811694436397875 / 140737488355328)
      0 (5) 6811694436397875
      (by norm_num [abs_of_pos]) (by norm_num [abs_of_pos])
      (roundHalfEven_eq_of_close _ _ (by norm_num [abs_lt]))]
    norm_num
  have hS1 : Number.add (3398810343781171 / 70368744177664) (6558366957358285 / 281474976710656)
      = (2519201041560371 / 35184372088832) := by
    rw [Number.add_eq_of_round (3398810343781171 / 70368744177664)
      (6558366957358285 / 281474976710656) (6) 5038402083120742
      (by norm_num [abs_of_pos]) (by norm_num [abs_of_pos])
      (roundHalfEven_eq_of_close _ _ (by norm_num [abs_lt]))]
    norm_num
  have hA1 : Number.add (3602879701896397 / 36028797018963968) (2519201041560371 / 35184372088832)
      = (1261359739384627 / 17592186044416) := by
    rw [Number.add_eq_of_round (3602879701896397 / 36028797018963968)
      (2519201041560371 / 35184372088832) (6) 5045438957538508
      (by norm_num [abs_of_pos]) (by norm_num [abs_of_pos])
      (roundHalfEven_eq_of_close _ _ (by norm_num [abs_lt]))]
    norm_num
  have hE1 : Number.sub (1261359739384627 / 17592186044416) 0
      = (1261359739384627 / 17592186044416) := by
    rw [Number.sub_eq_of_round (1261359739384627 / 17592186044416)
      0 (6) 5045438957538508
      (by norm_num [abs_of_pos]) (by norm_num [abs_of_pos])
      (roundHalfEven_eq_of_close _ _ (by norm_num [abs_lt]))]
    norm_num
  have hS2 : Number.add (2519201041560371 / 35184372088832) (6558366957358285 / 281474976710656)
      = (6677993822460313 / 70368744177664) := by
    rw [Number.add_eq_of_round (2519201041560371 / 35184372088832)
      (6558366957358285 / 281474976710656) (6) 6677993822460313
      (by norm_num [abs_of_pos]) (by norm_num [abs_of_pos])
      (roundHalfEven_eq_of_close _ _ (by norm_num [abs_lt]))]
    norm_num
  have hA2 : Number.add (3602879701896397 / 36028797018963968) (6677993822460313 / 70368744177664)
      = (6685030696878079 / 70368744177664) := by
    rw [Number.add_eq_of_round (3602879701896397 / 36028797018963968)
      (6677993822460313 / 70368744177664) (6) 6685030696878079
      (by norm_num [abs_of_pos]) (by norm_num [abs_of_pos])
      (roundHalfEven_eq_of_close _ _ (by norm_num [abs_lt]))]
    norm_num
  have hE2 : Number.sub (6685030696878079 / 70368744177664) 0
      = (6685030696878079 / 70368744177664) := by
    rw [Number.sub_eq_of_round (6685030696878079 / 70368744177664)
      0 (6) 6685030696878079
      (by norm_num [abs_of_pos]) (by norm_num [abs_of_pos])
      (roundHalfEven_eq_of_close _ _ (by norm_num [abs_lt]))]
    norm_num
  have hS3 : Number.add (6677993822460313 / 70368744177664) (6558366957358285 / 281474976710656)
      = (2079396390449971 / 17592186044416) := by
    rw [Number.add_eq_of_round (6677993822460313 / 70368744177664)
      (6558366957358285 / 281474976710656) (6) 8317585561799884
      (by norm_num [abs_of_pos]) (by norm_num [abs_of_pos])
      (roundHalfEven_eq_of_close _ _ (by norm_num [abs_lt]))]
    norm_num
  have hA3 : Number.add (3602879701896397 / 36028797018963968) (2079396390449971 / 17592186044416)
      = (4162311218108825 / 35184372088832) := by
    rw [Number.add_eq_of_round (3602879701896397 / 36028797018963968)
      (2079396390449971 / 17592186044416) (6) 8324622436217650
      (by norm_num [abs_of_pos]) (by norm_num [abs_of_pos])
      (roundHalfEven_eq_of_close _ _ (by norm_num [abs_lt]))]
    norm_num
  have hE3 : Number.sub (4162311218108825 / 35184372088832) 0
      = (4162311218108825 / 35184372088832) := by
    rw [Number.sub_eq_of_round (4162311218108825 / 35184372088832)
      0 (6) 8324622436217650
      (by norm_num [abs_of_pos]) (by norm_num [abs_of_pos])
      (roundHalfEven_eq_of_close _ _ (by norm_num [abs_lt]))]
    norm_num
  refine ⟨?_, ?_, ?_, ?_⟩ <;>
    simp only [rowBottomEdge, walkedEdge, walkedSize, exampleDaoFractional,
      exampleDaoInWindow, exampleDao, hS0, hS1, hS2, hS3, hA0, hA1, hA2, hA3, hE0, hE1, hE2,
      hE3]

/-- The computed far edges of the columns 0 to 2 of the table `exampleDaoInWindow` placed
30 pixels from the left of a window scrolled by 10 pixels: 120, 170 and 220. -/
theorem columnEndEdge_exampleDaoInWindow :
    columnEndEdge (exampleDaoInWindow 0 30 0 10) 0 = 120
    ∧ columnEndEdge (exampleDaoInWindow 0 30 0 10) 1 = 170
    ∧ columnEndEdge (exampleDaoInWindow 0 30 0 10) 2 = 220 := by
  have hoff : inlineStartRootElementOffset (exampleDaoInWindow 0 30 0 10) = 30 := rfl
  have hS0 : Number.add 50 50 = 100 := by
    exact_mod_cast Number.add_intCast 50 50 (by norm_num)
  have hS1 : Number.add 100 50 = 150 := by
    exact_mod_cast Number.add_intCast 100 50 (by norm_num)
  have hS2 : Number.add 150 50 = 200 := by
    exact_mod_cast Number.add_intCast 150 50 (by norm_num)
  have hA0 : Number.add 30 100 = 130 := by
    exact_mod_cast Number.add_intCast 30 100 (by norm_num)
  have hA1 : Number.add 30 150 = 180 := by
    exact_mod_cast Number.add_intCast 30 150 (by norm_num)
  have hA2 : Number.add 30 200 = 230 := by
    exact_mod_cast Number.add_intCast 30 200 (by norm_num)
  have hE0 : Number.sub 130 10 = 120 := by
    exact_mod_cast Number.sub_intCast 130 10 (by norm_num)
  have hE1 : Number.sub 180 10 = 170 := by
    exact_mod_cast Number.sub_intCast 180 10 (by norm_num)
  have hE2 : Number.sub 230 10 = 220 := by
    exact_mod_cast Number.sub_intCast 230 10 (by norm_num)
  have habs : |(10 : ℚ)| = 10 := by norm_num
  refine ⟨?_, ?_, ?_⟩ <;> simp only [columnEndEdge, hoff] <;>
    simp only [walkedEdge, walkedSize, exampleDaoInWindow, exampleDao, habs, hS0, hS1, hS2,
      hA0, hA1, hA2, hE0, hE1, hE2]

/-- C1: for every state and every combination of snap hints, a target that is not an
integer, is negative or exceeds the total count makes `scrollViewportHorizontally` (and
`scrollViewportVertically`) return false with no call made, the `Scroll` object and the
DOM unchanged; a target equal to the total count is not rejected: on a drawn table with
an explicit hint it is handed to the hook and to the overlay. -/
theorem invalid_target_is_rejected {σ : Type} (env : Dom σ) (w : σ) (self : Scroll)
    (target : ℚ) (snapFar snapNear : Option Bool) :
    ((Number.isInteger target = false ∨ target < 0
        ∨ target > (env.dataAccessObject w).totalColumns) →
      scrollViewportHorizontally env w self target snapFar snapNear
        = { result := false, self := self, dom := w, calls := [] })
    ∧ ((Number.isInteger target = false ∨ target < 0
        ∨ target > (env.dataAccessObject w).totalRows) →
      scrollViewportVertically env w self target snapNear snapFar
        = { result := false, self := self, dom := w, calls := [] })
    ∧ ((env.dataAccessObject w).drawn = true → 0 ≤ (env.dataAccessObject w).totalColumns →
        target = (env.dataAccessObject w).totalColumns →
        (snapFar ≠ none ∨ snapNear ≠ none) →
      (scrollViewportHorizontally env w self target snapFar snapNear).calls
        = [.onBeforeViewportScrollHorizontally target,
           .inlineStartOverlayScrollTo
             ((env.dataAccessObject w).wtSettings.onBeforeViewportScrollHorizontally target)
             snapFar])
    ∧ ((env.dataAccessObject w).drawn = true → 0 ≤ (env.dataAccessObject w).totalRows →
        target = (env.dataAccessObject w).totalRows →
        (snapNear ≠ none ∨ snapFar ≠ none) →
      (scrollViewportVertically env w self target snapNear snapFar).calls
        = [.onBeforeViewportScrollVertically target,
           .topOverlayScrollTo
             ((env.dataAccessObject w).wtSettings.onBeforeViewportScrollVertically target)
             snapFar]) := by
  refine ⟨fun h => ?_, fun h => ?_, fun hd h0 ht hs => ?_, fun hd h0 ht hs => ?_⟩
  · apply scrollViewportHorizontally_of_guard
    rcases h with h | h | h
    · exact Or.inr (Or.inl (by simp [h]))
    · exact Or.inr (Or.inr (Or.inl h))
    · exact Or.inr (Or.inr (Or.inr h))
  · apply scrollViewportVertically_of_guard
    rcases h with h | h | h
    · exact Or.inr (Or.inl (by simp [h]))
    · exact Or.inr (Or.inr (Or.inl h))
    · exact Or.inr (Or.inr (Or.inr h))
  · have hi : Number.isInteger target = true := by
      subst ht
      simp [Number.isInteger]
    have h0q : (0 : ℚ) ≤ target := by
      subst ht
      exact_mod_cast h0
    have hg : ¬ (¬ (env.dataAccessObject w).drawn ∨ ¬ Number.isInteger target ∨ target < 0
        ∨ target > (env.dataAccessObject w).totalColumns) :=
      guard_passes hd hi h0q (le_of_eq ht)
    have ha := autoSnapping_eq_false snapFar snapNear hs
    unfold scrollViewportHorizontally
    simp only [if_neg hg, ha]
    split_ifs <;> simp_all [scrollToColumn, scrollToRow]
  · have hi : Number.isInteger target = true := by
      subst ht
      simp [Number.isInteger]
    have h0q : (0 : ℚ) ≤ target := by
      subst ht
      exact_mod_cast h0
    have hg : ¬ (¬ (env.dataAccessObject w).drawn ∨ ¬ Number.isInteger target ∨ target < 0
        ∨ target > (env.dataAccessObject w).totalRows) :=
      guard_passes hd hi h0q (le_of_eq ht)
    have ha := autoSnapping_eq_false snapNear snapFar hs
    unfold scrollViewportVertically
    simp only [if_neg hg, ha]
    split_ifs <;> simp_all [scrollToColumn, scrollToRow]

/-- C1, at concrete inputs: the column `3/2`, the column `-1` and the column `51` of a
50-column table are rejected, and the column `50` reaches the overlay. -/
theorem invalid_target_is_rejected_witness :
    (Number.isInteger (3 / 2) = false ∨ (3 / 2 : ℚ) < 0
        ∨ (3 / 2 : ℚ) > ((exampleDom true).dataAccessObject exampleDao).totalColumns)
    ∧ scrollViewportHorizontally (exampleDom true) exampleDao Scroll.new (3 / 2)
        (some true) none
      = { result := false, self := Scroll.new, dom := exampleDao, calls := [] }
    ∧ (scrollViewportHorizontally (exampleDom true) exampleDao Scroll.new 50
        (some true) none).calls
      = [.onBeforeViewportScrollHorizontally 50,
         .inlineStartOverlayScrollTo 50 (some true)] :=
  ⟨Or.inl (by norm_num [Number.isInteger]),
    (invalid_target_is_rejected (exampleDom true) exampleDao Scroll.new (3 / 2)
      (some true) none).1 (Or.inl (by norm_num [Number.isInteger])),
    (invalid_target_is_rejected (exampleDom true) exampleDao Scroll.new 50
      (some true) none).2.2.1 rfl (by decide) (by norm_num [exampleDom, exampleDao])
      (Or.inl (by simp))⟩

/-- C2: on a table that has not been drawn, `scrollViewportHorizontally`,
`scrollViewportVertically` and `scrollViewport` return false for all arguments and all
states, make no call (no overlay `scrollTo`, no pre-scroll hook) and leave
`lastScrolledColumnPos`, `lastScrolledRowPos` and the DOM unchanged. -/
theorem not_drawn_is_noop {σ : Type} (env : Dom σ) (w : σ) (self : Scroll) (col row : ℚ)
    (snapToTop snapToRight snapToBottom snapToLeft : Option Bool)
    (hd : (env.dataAccessObject w).drawn = false) :
    scrollViewportHorizontally env w self col snapToRight snapToLeft
        = { result := false, self := self, dom := w, calls := [] }
    ∧ scrollViewportVertically env w self row snapToTop snapToBottom
        = { result := false, self := self, dom := w, calls := [] }
    ∧ scrollViewport env w self col row snapToTop snapToRight snapToBottom snapToLeft
        = { result := false, self := self, dom := w, calls := [] } := by
  have hH := scrollViewportHorizontally_of_guard env w self col snapToRight snapToLeft
    (Or.inl (by simp [hd]))
  have hV := scrollViewportVertically_of_guard env w self row snapToTop snapToBottom
    (Or.inl (by simp [hd]))
  refine ⟨hH, hV, ?_⟩
  unfold scrollViewport
  simp only [hH, hV, Bool.or_self, List.append_nil]

/-- C2, at a concrete input: the table `exampleDao` before its first draw. -/
theorem not_drawn_is_noop_witness :
    scrollViewport (exampleDom true) { exampleDao with drawn := false } Scroll.new 10 20
        none (some true) none none
      = { result := false, self := Scroll.new, dom := { exampleDao with drawn := false },
          calls := [] } :=
  (not_drawn_is_noop (exampleDom true) { exampleDao with drawn := false } Scroll.new 10 20
    none (some true) none none rfl).2.2

/-- C3: under auto-snapping (both hints undefined) a column below `fixedColumnsStart`
makes `scrollViewportHorizontally` return false without calling the pre-scroll hook or
`inlineStartOverlay.scrollTo` and without changing the `Scroll` object, whatever the
visible range and the scroll history are (and whether or not the column is valid). -/
theorem frozen_column_is_not_scrolled {σ : Type} (env : Dom σ) (w : σ) (self : Scroll)
    (column : ℚ) (hf : column < (env.dataAccessObject w).fixedColumnsStart) :
    scrollViewportHorizontally env w self column none none
      = { result := false, self := self, dom := w, calls := [] } := by
  by_cases hg : ¬ (env.dataAccessObject w).drawn ∨ ¬ Number.isInteger column ∨ column < 0
      ∨ column > (env.dataAccessObject w).totalColumns
  · exact scrollViewportHorizontally_of_guard env w self column none none hg
  · exact scrollViewportHorizontally_of_frozen env w self column none none hg ⟨rfl, hf⟩

/-- C3, at the input of the scenario: column 2 with three frozen columns, on a drawn
table of 50 columns (so that the column is valid). -/
theorem frozen_column_is_not_scrolled_witness :
    (((exampleDom true).dataAccessObject exampleDao).drawn = true
      ∧ ((exampleDom true).dataAccessObject exampleDao).fixedColumnsStart = 3
      ∧ (2 : ℚ) < ((exampleDom true).dataAccessObject exampleDao).fixedColumnsStart)
    ∧ scrollViewportHorizontally (exampleDom true) exampleDao Scroll.new 2 none none
      = { result := false, self := Scroll.new, dom := exampleDao, calls := [] } :=
  ⟨⟨rfl, rfl, by norm_num [exampleDom, exampleDao]⟩,
    frozen_column_is_not_scrolled (exampleDom true) exampleDao Scroll.new 2
      (by norm_num [exampleDom, exampleDao])⟩

/-- C4: on a drawn table, for a valid target outside the frozen bands, under
auto-snapping and with no fully visible index on the axis (first visible index `-1`),
the axis overlay's `scrollTo` is called exactly once, with `(t, t > lastScrolledPos)`
where `t` is the hook's value for the target and `lastScrolledPos` the position held
before the call; the call returns the overlay's result, and the position becomes `t`
exactly when that result is true. Horizontal axis first, vertical axis second. -/
theorem history_snap_when_nothing_visible {σ : Type} (env : Dom σ) (w : σ) (self : Scroll)
    (target : ℚ) :
    (((env.dataAccessObject w).drawn = true ∧ Number.isInteger target = true
        ∧ 0 ≤ target ∧ target ≤ (env.dataAccessObject w).totalColumns
        ∧ ((env.dataAccessObject w).fixedColumnsStart : ℚ) ≤ target
        ∧ getFirstVisibleColumn (env.dataAccessObject w) = -1) →
      ∀ t flag, t = (env.dataAccessObject w).wtSettings.onBeforeViewportScrollHorizontally target →
        flag = some (decide (t > self.lastScrolledColumnPos)) →
        scrollViewportHorizontally env w self target none none
          = { result := (env.inlineStartOverlayScrollTo w t flag).1
              self :=
                if (env.inlineStartOverlayScrollTo w t flag).1 = true then
                  { self with lastScrolledColumnPos := t }
                else self
              dom := (env.inlineStartOverlayScrollTo w t flag).2
              calls := [.onBeforeViewportScrollHorizontally target,
                        .inlineStartOverlayScrollTo t flag] })
    ∧ (((env.dataAccessObject w).drawn = true ∧ Number.isInteger target = true
        ∧ 0 ≤ target ∧ target ≤ (env.dataAccessObject w).totalRows
        ∧ ((env.dataAccessObject w).fixedRowsTop : ℚ) ≤ target
        ∧ target ≤ (((env.dataAccessObject w).totalRows
            - (env.dataAccessObject w).fixedRowsBottom - 1 : Int) : ℚ)
        ∧ getFirstVisibleRow (env.dataAccessObject w) = -1) →
      ∀ t flag, t = (env.dataAccessObject w).wtSettings.onBeforeViewportScrollVertically target →
        flag = some (decide (t > self.lastScrolledRowPos)) →
        scrollViewportVertically env w self target none none
          = { result := (env.topOverlayScrollTo w t flag).1
              self :=
                if (env.topOverlayScrollTo w t flag).1 = true then
                  { self with lastScrolledRowPos := t }
                else self
              dom := (env.topOverlayScrollTo w t flag).2
              calls := [.onBeforeViewportScrollVertically target,
                        .topOverlayScrollTo t flag] }) := by
  constructor
  · rintro ⟨hd, hi, h0, ht, hf, h1⟩ t flag rfl rfl
    rw [scrollViewportHorizontally_of_noneVisible env w self target none none
      (guard_passes hd hi h0 ht) (fun hx => absurd hf (not_le.mpr hx.2)) h1]
    rfl
  · rintro ⟨hd, hi, h0, ht, hf, hb, h1⟩ t flag rfl rfl
    rw [scrollViewportVertically_of_noneVisible env w self target none none
      (guard_passes hd hi h0 ht)
      (fun hx => hx.2.elim (fun h => absurd hf (not_le.mpr h))
        (fun h => absurd hb (not_le.mpr h))) h1]
    rfl

/-- C4, at the two scenarios: 100 rows, no frozen row, no fully visible row, last
scrolled row 5, an overlay that reports success.  Row 10 is delegated as `(10, true)` and
row 3 as `(3, false)`; both calls return true and record the row. -/
theorem history_snap_when_nothing_visible_witness :
    scrollViewportVertically (exampleDom true) exampleDao
        { lastScrolledColumnPos := -1, lastScrolledRowPos := 5 } 10 none none
      = { result := true
          self := { lastScrolledColumnPos := -1, lastScrolledRowPos := 10 }
          dom := exampleDao
          calls := [.onBeforeViewportScrollVertically 10, .topOverlayScrollTo 10 (some true)] }
    ∧ scrollViewportVertically (exampleDom true) exampleDao
        { lastScrolledColumnPos := -1, lastScrolledRowPos := 5 } 3 none none
      = { result := true
          self := { lastScrolledColumnPos := -1, lastScrolledRowPos := 3 }
          dom := exampleDao
          calls := [.onBeforeViewportScrollVertically 3, .topOverlayScrollTo 3 (some false)] } :=
  ⟨(history_snap_when_nothing_visible (exampleDom true) exampleDao
      { lastScrolledColumnPos := -1, lastScrolledRowPos := 5 } 10).2
      ⟨rfl, by norm_num [Number.isInteger], by norm_num,
        by norm_num [exampleDom, exampleDao], by norm_num [exampleDom, exampleDao],
        by norm_num [exampleDom, exampleDao], rfl⟩
      10 (some true) rfl (by norm_num),
    (history_snap_when_nothing_visible (exampleDom true) exampleDao
      { lastScrolledColumnPos := -1, lastScrolledRowPos := 5 } 3).2
      ⟨rfl, by norm_num [Number.isInteger], by norm_num,
        by norm_num [exampleDom, exampleDao], by norm_num [exampleDom, exampleDao],
        by norm_num [exampleDom, exampleDao], rfl⟩
      3 (some false) rfl (by norm_num)⟩

/-- C5 fails as stated: columns 3 to 8 are fully visible and the hook sends every column
to 20.  Column 5 lies inside the visible range, yet the call scrolls: it hands
`(20, true)` to `inlineStartOverlay.scrollTo`, returns true and records 20. -/
theorem visible_column_scrolls_after_hook :
    getFirstVisibleColumn (exampleDaoHooked (exampleDaoVisible 10 20 3 8) fun _ => 20) ≠ -1
    ∧ (getFirstVisibleColumn (exampleDaoHooked (exampleDaoVisible 10 20 3 8) fun _ => 20) : ℚ)
        ≤ 5
    ∧ (5 : ℚ)
        ≤ getLastVisibleColumn (exampleDaoHooked (exampleDaoVisible 10 20 3 8) fun _ => 20)
    ∧ scrollViewportHorizontally (exampleDom true)
        (exampleDaoHooked (exampleDaoVisible 10 20 3 8) fun _ => 20) Scroll.new 5 none none
      = { result := true
          self := { lastScrolledColumnPos := 20, lastScrolledRowPos := -1 }
          dom := exampleDaoHooked (exampleDaoVisible 10 20 3 8) fun _ => 20
          calls := [.onBeforeViewportScrollHorizontally 5,
                    .inlineStartOverlayScrollTo 20 (some true)] } :=
  ⟨by decide,
    by norm_num [getFirstVisibleColumn, exampleDaoHooked, exampleDaoVisible],
    by
      rw [getLastVisibleColumn_of_container] <;>
        norm_num [exampleDaoHooked, exampleDaoVisible, exampleDao],
    rfl⟩

/-- C5, amended: when at least one column is fully visible and auto-snapping is active,
every column whose value after the pre-scroll hook lies inside
`[getFirstVisibleColumn(), getLastVisibleColumn()]` produces no scroll: the call returns
false, makes no `scrollTo` call and leaves the `Scroll` object and the DOM unchanged;
the same for rows.  Under the default identity hook the value is the column itself. -/
theorem visible_target_is_not_scrolled {σ : Type} (env : Dom σ) (w : σ) (self : Scroll)
    (target : ℚ) :
    ((getFirstVisibleColumn (env.dataAccessObject w) ≠ -1
        ∧ (getFirstVisibleColumn (env.dataAccessObject w) : ℚ)
          ≤ (env.dataAccessObject w).wtSettings.onBeforeViewportScrollHorizontally target
        ∧ (env.dataAccessObject w).wtSettings.onBeforeViewportScrollHorizontally target
          ≤ getLastVisibleColumn (env.dataAccessObject w)) →
      (scrollViewportHorizontally env w self target none none).result = false
      ∧ (scrollViewportHorizontally env w self target none none).self = self
      ∧ (scrollViewportHorizontally env w self target none none).dom = w
      ∧ ∀ c ∈ (scrollViewportHorizontally env w self target none none).calls,
          c.isScrollTo = false)
    ∧ ((getFirstVisibleRow (env.dataAccessObject w) ≠ -1
        ∧ (getFirstVisibleRow (env.dataAccessObject w) : ℚ)
          ≤ (env.dataAccessObject w).wtSettings.onBeforeViewportScrollVertically target
        ∧ (env.dataAccessObject w).wtSettings.onBeforeViewportScrollVertically target
          ≤ getLastVisibleRow (env.dataAccessObject w)) →
      (scrollViewportVertically env w self target none none).result = false
      ∧ (scrollViewportVertically env w self target none none).self = self
      ∧ (scrollViewportVertically env w self target none none).dom = w
      ∧ ∀ c ∈ (scrollViewportVertically env w self target none none).calls,
          c.isScrollTo = false) := by
  constructor
  · rintro ⟨h1, hlo, hhi⟩
    by_cases hg : ¬ (env.dataAccessObject w).drawn ∨ ¬ Number.isInteger target ∨ target < 0
        ∨ target > (env.dataAccessObject w).totalColumns
    · rw [scrollViewportHorizontally_of_guard env w self target none none hg]
      simp
    · by_cases hx : ((none : Option Bool).isNone && (none : Option Bool).isNone) = true
          ∧ target < (env.dataAccessObject w).fixedColumnsStart
      · rw [scrollViewportHorizontally_of_frozen env w self target none none hg hx]
        simp
      · rw [scrollViewportHorizontally_of_inside env w self target none none hg hx h1
          (by
            rintro (⟨-, h | h⟩ | h)
            · exact absurd hlo (not_le.mpr h)
            · exact absurd hhi (not_le.mpr h)
            · exact h rfl)]
        simp [Call.isScrollTo]
  · rintro ⟨h1, hlo, hhi⟩
    by_cases hg : ¬ (env.dataAccessObject w).drawn ∨ ¬ Number.isInteger target ∨ target < 0
        ∨ target > (env.dataAccessObject w).totalRows
    · rw [scrollViewportVertically_of_guard env w self target none none hg]
      simp
    · by_cases hx : ((none : Option Bool).isNone && (none : Option Bool).isNone) = true
          ∧ (target < (env.dataAccessObject w).fixedRowsTop
            ∨ target > (((env.dataAccessObject w).totalRows
              - (env.dataAccessObject w).fixedRowsBottom - 1 : Int) : ℚ))
      · rw [scrollViewportVertically_of_frozen env w self target none none hg hx]
        simp
      · rw [scrollViewportVertically_of_inside env w self target none none hg hx h1
          (by
            rintro (⟨-, h | h⟩ | h)
            · exact absurd hlo (not_le.mpr h)
            · exact absurd hhi (not_le.mpr h)
            · exact h rfl)]
        simp [Call.isScrollTo]

/-- C5 amended, at a concrete input: columns 3 to 8 are fully visible, the hook is the
identity and column 5 is requested. -/
theorem visible_target_is_not_scrolled_witness :
    (scrollViewportHorizontally (exampleDom true) (exampleDaoVisible 10 20 3 8) Scroll.new 5
        none none).result = false
    ∧ (scrollViewportHorizontally (exampleDom true) (exampleDaoVisible 10 20 3 8) Scroll.new 5
        none none).self = Scroll.new :=
  ⟨((visible_target_is_not_scrolled (exampleDom true) (exampleDaoVisible 10 20 3 8)
      Scroll.new 5).1
      ⟨by decide, by norm_num [exampleDom, exampleDaoVisible, exampleDao, getFirstVisibleColumn],
        by
          rw [getLastVisibleColumn_of_container] <;>
            norm_num [exampleDom, exampleDaoVisible, exampleDao]⟩).1,
   ((visible_target_is_not_scrolled (exampleDom true) (exampleDaoVisible 10 20 3 8)
      Scroll.new 5).1
      ⟨by decide, by norm_num [exampleDom, exampleDaoVisible, exampleDao, getFirstVisibleColumn],
        by
          rw [getLastVisibleColumn_of_container] <;>
            norm_num [exampleDom, exampleDaoVisible, exampleDao]⟩).2.1⟩

/-- C6 fails as stated, in two ways.  First, columns 3 to 8 are fully visible and the hook
sends every column to 5: the valid, unfrozen column 20 lies outside the visible range,
yet `inlineStartOverlay.scrollTo` is not called.  Second, with the identity hook, rows 10
to 20 fully visible and two frozen bottom rows in a table of 100 rows, row 99 is valid,
is not in the frozen leading band and lies outside the visible range, yet
`topOverlay.scrollTo` is not called. -/
theorem outside_target_is_not_always_scrolled :
    (getFirstVisibleColumn (exampleDaoHooked (exampleDaoVisible 10 20 3 8) fun _ => 5) ≠ -1
      ∧ (20 : ℚ)
        > getLastVisibleColumn (exampleDaoHooked (exampleDaoVisible 10 20 3 8) fun _ => 5)
      ∧ ((exampleDaoHooked (exampleDaoVisible 10 20 3 8) fun _ => 5).fixedColumnsStart : ℚ)
        ≤ 20
      ∧ (20 : ℚ) ≤ (exampleDaoHooked (exampleDaoVisible 10 20 3 8) fun _ => 5).totalColumns
      ∧ scrollViewportHorizontally (exampleDom true)
          (exampleDaoHooked (exampleDaoVisible 10 20 3 8) fun _ => 5) Scroll.new 20 none none
        = { result := false
            self := Scroll.new
            dom := exampleDaoHooked (exampleDaoVisible 10 20 3 8) fun _ => 5
            calls := [.onBeforeViewportScrollHorizontally 20] })
    ∧ (getFirstVisibleRow { exampleDaoVisible 10 20 3 8 with fixedRowsBottom := 2 } ≠ -1
      ∧ (99 : ℚ) > getLastVisibleRow { exampleDaoVisible 10 20 3 8 with fixedRowsBottom := 2 }
      ∧ (({ exampleDaoVisible 10 20 3 8 with fixedRowsBottom := 2 } : ScrollDao).fixedRowsTop
          : ℚ) ≤ 99
      ∧ (99 : ℚ)
        ≤ ({ exampleDaoVisible 10 20 3 8 with fixedRowsBottom := 2 } : ScrollDao).totalRows
      ∧ scrollViewportVertically (exampleDom true)
          { exampleDaoVisible 10 20 3 8 with fixedRowsBottom := 2 } Scroll.new 99 none none
        = { result := false
            self := Scroll.new
            dom := { exampleDaoVisible 10 20 3 8 with fixedRowsBottom := 2 }
            calls := [] }) :=
  ⟨⟨by decide,
      by
        rw [getLastVisibleColumn_of_container] <;>
          norm_num [exampleDaoHooked, exampleDaoVisible, exampleDao],
      by norm_num [exampleDaoHooked, exampleDaoVisible, exampleDao],
      by norm_num [exampleDaoHooked, exampleDaoVisible, exampleDao],
      rfl⟩,
    ⟨by decide,
      by rw [getLastVisibleRow_of_container] <;> norm_num [exampleDaoVisible, exampleDao],
      by norm_num [exampleDaoVisible, exampleDao],
      by norm_num [exampleDaoVisible, exampleDao],
      rfl⟩⟩

/-- C6, amended: on a drawn table, under auto-snapping and with at least one fully
visible index on the axis, a valid target outside the frozen bands (columns: at or after
`fixedColumnsStart`; rows: from `fixedRowsTop` to `totalRows - fixedRowsBottom - 1`) whose
value `t` after the pre-scroll hook falls outside the fully visible range makes the axis
overlay's `scrollTo` be called exactly once, with `(t, t > lastVisible)`, whatever the
`Scroll` object holds; the call returns the overlay's result.  Under the default identity
hook `t` is the target itself. -/
theorem outside_target_is_scrolled {σ : Type} (env : Dom σ) (w : σ) (target : ℚ) :
    (((env.dataAccessObject w).drawn = true ∧ Number.isInteger target = true
        ∧ 0 ≤ target ∧ target ≤ (env.dataAccessObject w).totalColumns
        ∧ ((env.dataAccessObject w).fixedColumnsStart : ℚ) ≤ target
        ∧ getFirstVisibleColumn (env.dataAccessObject w) ≠ -1
        ∧ ((env.dataAccessObject w).wtSettings.onBeforeViewportScrollHorizontally target
            < getFirstVisibleColumn (env.dataAccessObject w)
          ∨ (env.dataAccessObject w).wtSettings.onBeforeViewportScrollHorizontally target
            > getLastVisibleColumn (env.dataAccessObject w))) →
      ∀ t flag, t = (env.dataAccessObject w).wtSettings.onBeforeViewportScrollHorizontally target →
        flag = some (decide (t > getLastVisibleColumn (env.dataAccessObject w))) →
        ∀ self : Scroll,
          scrollViewportHorizontally env w self target none none
            = { result := (env.inlineStartOverlayScrollTo w t flag).1
                self :=
                  if (env.inlineStartOverlayScrollTo w t flag).1 = true then
                    { self with lastScrolledColumnPos := t }
                  else self
                dom := (env.inlineStartOverlayScrollTo w t flag).2
                calls := [.onBeforeViewportScrollHorizontally target,
                          .inlineStartOverlayScrollTo t flag] })
    ∧ (((env.dataAccessObject w).drawn = true ∧ Number.isInteger target = true
        ∧ 0 ≤ target ∧ target ≤ (env.dataAccessObject w).totalRows
        ∧ ((env.dataAccessObject w).fixedRowsTop : ℚ) ≤ target
        ∧ target ≤ (((env.dataAccessObject w).totalRows
            - (env.dataAccessObject w).fixedRowsBottom - 1 : Int) : ℚ)
        ∧ getFirstVisibleRow (env.dataAccessObject w) ≠ -1
        ∧ ((env.dataAccessObject w).wtSettings.onBeforeViewportScrollVertically target
            < getFirstVisibleRow (env.dataAccessObject w)
          ∨ (env.dataAccessObject w).wtSettings.onBeforeViewportScrollVertically target
            > getLastVisibleRow (env.dataAccessObject w))) →
      ∀ t flag, t = (env.dataAccessObject w).wtSettings.onBeforeViewportScrollVertically target →
        flag = some (decide (t > getLastVisibleRow (env.dataAccessObject w))) →
        ∀ self : Scroll,
          scrollViewportVertically env w self target none none
            = { result := (env.topOverlayScrollTo w t flag).1
                self :=
                  if (env.topOverlayScrollTo w t flag).1 = true then
                    { self with lastScrolledRowPos := t }
                  else self
                dom := (env.topOverlayScrollTo w t flag).2
                calls := [.onBeforeViewportScrollVertically target,
                          .topOverlayScrollTo t flag] }) := by
  constructor
  · rintro ⟨hd, hi, h0, ht, hf, h1, h2⟩ t flag rfl rfl self
    rw [scrollViewportHorizontally_of_outside env w self target none none
      (guard_passes hd hi h0 ht) (fun hx => absurd hf (not_le.mpr hx.2)) h1
      (Or.inl ⟨rfl, h2⟩)]
    rfl
  · rintro ⟨hd, hi, h0, ht, hf, hb, h1, h2⟩ t flag rfl rfl self
    rw [scrollViewportVertically_of_outside env w self target none none
      (guard_passes hd hi h0 ht)
      (fun hx => hx.2.elim (fun h => absurd hf (not_le.mpr h))
        (fun h => absurd hb (not_le.mpr h))) h1 (Or.inl ⟨rfl, h2⟩)]
    rfl

/-- C6 amended, at concrete inputs: columns 3 to 8 are fully visible and the hook is the
identity; column 20 is delegated as `(20, true)` and rows 10 to 20 being fully visible,
row 4 is delegated as `(4, false)`. -/
theorem outside_target_is_scrolled_witness :
    scrollViewportHorizontally (exampleDom true) (exampleDaoVisible 10 20 3 8) Scroll.new 20
        none none
      = { result := true
          self := { lastScrolledColumnPos := 20, lastScrolledRowPos := -1 }
          dom := exampleDaoVisible 10 20 3 8
          calls := [.onBeforeViewportScrollHorizontally 20,
                    .inlineStartOverlayScrollTo 20 (some true)] }
    ∧ scrollViewportVertically (exampleDom true) (exampleDaoVisible 10 20 3 8) Scroll.new 4
        none none
      = { result := true
          self := { lastScrolledColumnPos := -1, lastScrolledRowPos := 4 }
          dom := exampleDaoVisible 10 20 3 8
          calls := [.onBeforeViewportScrollVertically 4, .topOverlayScrollTo 4 (some false)] } :=
  ⟨(outside_target_is_scrolled (exampleDom true) (exampleDaoVisible 10 20 3 8) 20).1
      ⟨rfl, by norm_num [Number.isInteger], by norm_num,
        by norm_num [exampleDom, exampleDaoVisible, exampleDao],
        by norm_num [exampleDom, exampleDaoVisible, exampleDao],
        by decide,
        Or.inr (by
          rw [getLastVisibleColumn_of_container] <;>
            norm_num [exampleDom, exampleDaoVisible, exampleDao])⟩
      20 (some true) rfl
      (by
        rw [getLastVisibleColumn_of_container] <;>
          norm_num [exampleDom, exampleDaoVisible, exampleDao])
      Scroll.new,
    (outside_target_is_scrolled (exampleDom true) (exampleDaoVisible 10 20 3 8) 4).2
      ⟨rfl, by norm_num [Number.isInteger], by norm_num,
        by norm_num [exampleDom, exampleDaoVisible, exampleDao],
        by norm_num [exampleDom, exampleDaoVisible, exampleDao],
        by norm_num [exampleDom, exampleDaoVisible, exampleDao],
        by decide,
        Or.inl (by
          norm_num [exampleDom, exampleDaoVisible, exampleDao, getFirstVisibleRow])⟩
      4 (some false) rfl
      (by
        rw [getLastVisibleRow_of_container] <;>
          norm_num [exampleDom, exampleDaoVisible, exampleDao])
      Scroll.new⟩

/-- C7: the last scrolled position is written only after a successful overlay move.  For
every call of `scrollViewportHorizontally`: if it returns false the `Scroll` object is
unchanged (both positions); if it returns true then `inlineStartOverlay.scrollTo(t, flag)`
was called for some `t` and `flag`, that call reported success, `lastScrolledColumnPos`
is `t` and `lastScrolledRowPos` is unchanged.  The same for `scrollViewportVertically`
with `topOverlay`, writing `lastScrolledRowPos` and never `lastScrolledColumnPos`. -/
theorem position_written_only_after_move {σ : Type} (env : Dom σ) (w : σ) (self : Scroll)
    (target : ℚ) (snapA snapB : Option Bool) :
    ((scrollViewportHorizontally env w self target snapA snapB).result = false →
      (scrollViewportHorizontally env w self target snapA snapB).self = self)
    ∧ ((scrollViewportHorizontally env w self target snapA snapB).result = true →
      ∃ t flag,
        Call.inlineStartOverlayScrollTo t flag
          ∈ (scrollViewportHorizontally env w self target snapA snapB).calls
        ∧ (env.inlineStartOverlayScrollTo w t flag).1 = true
        ∧ (scrollViewportHorizontally env w self target snapA snapB).self
          = { lastScrolledColumnPos := t, lastScrolledRowPos := self.lastScrolledRowPos })
    ∧ ((scrollViewportVertically env w self target snapA snapB).result = false →
      (scrollViewportVertically env w self target snapA snapB).self = self)
    ∧ ((scrollViewportVertically env w self target snapA snapB).result = true →
      ∃ t flag,
        Call.topOverlayScrollTo t flag
          ∈ (scrollViewportVertically env w self target snapA snapB).calls
        ∧ (env.topOverlayScrollTo w t flag).1 = true
        ∧ (scrollViewportVertically env w self target snapA snapB).self
          = { lastScrolledColumnPos := self.lastScrolledColumnPos, lastScrolledRowPos := t }) := by
  refine ⟨?_, ?_, ?_, ?_⟩
  · rcases scrollViewportHorizontally_cases env w self target snapA snapB
      with h | h | ⟨flag, h⟩ <;> rw [h]
    · exact fun _ => rfl
    · exact fun _ => rfl
    · intro hr
      simp only [scrollToColumn] at hr ⊢
      simp [hr]
  · rcases scrollViewportHorizontally_cases env w self target snapA snapB
      with h | h | ⟨flag, h⟩ <;> rw [h]
    · intro hr
      exact absurd hr (by simp)
    · intro hr
      exact absurd hr (by simp)
    · intro hr
      simp only [scrollToColumn] at hr ⊢
      exact ⟨_, flag, by simp, hr, by simp [hr]⟩
  · rcases scrollViewportVertically_cases env w self target snapA snapB
      with h | h | ⟨flag, h⟩ <;> rw [h]
    · exact fun _ => rfl
    · exact fun _ => rfl
    · intro hr
      simp only [scrollToRow] at hr ⊢
      simp [hr]
  · rcases scrollViewportVertically_cases env w self target snapA snapB
      with h | h | ⟨flag, h⟩ <;> rw [h]
    · intro hr
      exact absurd hr (by simp)
    · intro hr
      exact absurd hr (by simp)
    · intro hr
      simp only [scrollToRow] at hr ⊢
      exact ⟨_, flag, by simp, hr, by simp [hr]⟩

/-- C7, at concrete inputs: an overlay that refuses to move leaves the object unchanged
on a horizontal call, and an overlay that moves lets a vertical call write only
`lastScrolledRowPos`. -/
theorem position_written_only_after_move_witness :
    (scrollViewportHorizontally (exampleDom false) exampleDao
        { lastScrolledColumnPos := 7, lastScrolledRowPos := 5 } 10 none none).self
      = { lastScrolledColumnPos := 7, lastScrolledRowPos := 5 }
    ∧ ∃ t flag,
        Call.topOverlayScrollTo t flag
          ∈ (scrollViewportVertically (exampleDom true) exampleDao
              { lastScrolledColumnPos := 7, lastScrolledRowPos := 5 } 10 none none).calls
        ∧ ((exampleDom true).topOverlayScrollTo exampleDao t flag).1 = true
        ∧ (scrollViewportVertically (exampleDom true) exampleDao
              { lastScrolledColumnPos := 7, lastScrolledRowPos := 5 } 10 none none).self
          = { lastScrolledColumnPos := 7, lastScrolledRowPos := t } :=
  ⟨(position_written_only_after_move (exampleDom false) exampleDao
      { lastScrolledColumnPos := 7, lastScrolledRowPos := 5 } 10 none none).1 rfl,
    (position_written_only_after_move (exampleDom true) exampleDao
      { lastScrolledColumnPos := 7, lastScrolledRowPos := 5 } 10 none none).2.2.2 rfl⟩

/-- C8: `scrollViewport` runs `scrollViewportHorizontally(coords.col, snapToRight,
snapToLeft)` and then, whatever that call returned, `scrollViewportVertically(coords.row,
snapToTop, snapToBottom)` on the state the first call left; it returns true exactly when
at least one of the two returned true, its final state and its calls are those of the two
calls in sequence, and one call can change both positions (column 10 and row 20 of the
example table). -/
theorem scrollViewport_resolves_both_axes {σ : Type} (env : Dom σ) (w : σ) (self : Scroll)
    (col row : ℚ) (snapToTop snapToRight snapToBottom snapToLeft : Option Bool) :
    scrollViewport env w self col row snapToTop snapToRight snapToBottom snapToLeft
      = { result :=
            (scrollViewportHorizontally env w self col snapToRight snapToLeft).result
            || (scrollViewportVertically env
                (scrollViewportHorizontally env w self col snapToRight snapToLeft).dom
                (scrollViewportHorizontally env w self col snapToRight snapToLeft).self
                row snapToTop snapToBottom).result
          self :=
            (scrollViewportVertically env
              (scrollViewportHorizontally env w self col snapToRight snapToLeft).dom
              (scrollViewportHorizontally env w self col snapToRight snapToLeft).self
              row snapToTop snapToBottom).self
          dom :=
            (scrollViewportVertically env
              (scrollViewportHorizontally env w self col snapToRight snapToLeft).dom
              (scrollViewportHorizontally env w self col snapToRight snapToLeft).self
              row snapToTop snapToBottom).dom
          calls :=
            (scrollViewportHorizontally env w self col snapToRight snapToLeft).calls
            ++ (scrollViewportVertically env
                (scrollViewportHorizontally env w self col snapToRight snapToLeft).dom
                (scrollViewportHorizontally env w self col snapToRight snapToLeft).self
                row snapToTop snapToBottom).calls }
    ∧ ((scrollViewport env w self col row snapToTop snapToRight snapToBottom
          snapToLeft).result = true
      ↔ (scrollViewportHorizontally env w self col snapToRight snapToLeft).result = true
        ∨ (scrollViewportVertically env
            (scrollViewportHorizontally env w self col snapToRight snapToLeft).dom
            (scrollViewportHorizontally env w self col snapToRight snapToLeft).self
            row snapToTop snapToBottom).result = true)
    ∧ scrollViewport (exampleDom true) exampleDao Scroll.new 10 20 none none none none
      = { result := true
          self := { lastScrolledColumnPos := 10, lastScrolledRowPos := 20 }
          dom := exampleDao
          calls := [.onBeforeViewportScrollHorizontally 10,
                    .inlineStartOverlayScrollTo 10 (some true),
                    .onBeforeViewportScrollVertically 20,
                    .topOverlayScrollTo 20 (some true)] } := by
  refine ⟨rfl, ?_, rfl⟩
  unfold scrollViewport
  simp only [Bool.or_eq_true]

/-- C9: `getLastVisibleRow` returns `wtTable.getLastVisibleRow()` whenever the vertical
scroll element is not the window, and also when it is the window but
`rootElementOffset.top ≤ windowScrollTop`; so a different result requires the window and
`rootElementOffset.top > windowScrollTop`.  The same for `getLastVisibleColumn` with the
inline-start offset and `|windowScrollLeft|`. -/
theorem lastVisible_uncorrected (dao : ScrollDao) :
    ((dao.topOverlay.mainTableScrollableElementIsRootWindow = false
        ∨ dao.wtTable.rootElementOffset.top ≤ dao.rootWindow.getScrollTop) →
      getLastVisibleRow dao = dao.wtTable.getLastVisibleRow)
    ∧ (getLastVisibleRow dao ≠ dao.wtTable.getLastVisibleRow →
      dao.topOverlay.mainTableScrollableElementIsRootWindow = true
      ∧ dao.wtTable.rootElementOffset.top > dao.rootWindow.getScrollTop)
    ∧ ((dao.inlineStartOverlay.mainTableScrollableElementIsRootWindow = false
        ∨ inlineStartRootElementOffset dao ≤ |dao.rootWindow.getScrollLeft|) →
      getLastVisibleColumn dao = dao.wtTable.getLastVisibleColumn)
    ∧ (getLastVisibleColumn dao ≠ dao.wtTable.getLastVisibleColumn →
      dao.inlineStartOverlay.mainTableScrollableElementIsRootWindow = true
      ∧ inlineStartRootElementOffset dao > |dao.rootWindow.getScrollLeft|) := by
  have hrow : (dao.topOverlay.mainTableScrollableElementIsRootWindow = false
        ∨ dao.wtTable.rootElementOffset.top ≤ dao.rootWindow.getScrollTop) →
      getLastVisibleRow dao = dao.wtTable.getLastVisibleRow := by
    intro h
    unfold getLastVisibleRow
    rcases h with h | h
    · simp [h]
    · simp [not_lt.mpr h]
  have hcol : (dao.inlineStartOverlay.mainTableScrollableElementIsRootWindow = false
        ∨ inlineStartRootElementOffset dao ≤ |dao.rootWindow.getScrollLeft|) →
      getLastVisibleColumn dao = dao.wtTable.getLastVisibleColumn := by
    intro h
    unfold getLastVisibleColumn
    rcases h with h | h
    · simp [h]
    · simp [not_lt.mpr h]
  refine ⟨hrow, fun hne => ?_, hcol, fun hne => ?_⟩
  · by_contra hcon
    apply hne
    apply hrow
    by_cases hw : dao.topOverlay.mainTableScrollableElementIsRootWindow = true
    · exact Or.inr (not_lt.mp fun hgt => hcon ⟨hw, hgt⟩)
    · exact Or.inl (by simpa using hw)
  · by_contra hcon
    apply hne
    apply hcol
    by_cases hw : dao.inlineStartOverlay.mainTableScrollableElementIsRootWindow = true
    · exact Or.inr (not_lt.mp fun hgt => hcon ⟨hw, hgt⟩)
    · exact Or.inl (by simpa using hw)

/-- C9, at a concrete input: a window-scrolled table whose top offset 0 does not exceed the
window scroll 10 keeps the value 4 of `wtTable.getLastVisibleRow()`, and a table scrolled
in its own container keeps the value of `wtTable.getLastVisibleColumn()`. -/
theorem lastVisible_uncorrected_witness :
    getLastVisibleRow (exampleDaoInWindow 0 0 10 0) = 4
    ∧ getLastVisibleColumn (exampleDaoVisible 10 20 3 8) = 8 :=
  ⟨(lastVisible_uncorrected (exampleDaoInWindow 0 0 10 0)).1
      (Or.inr (by norm_num [exampleDaoInWindow])),
    (lastVisible_uncorrected (exampleDaoVisible 10 20 3 8)).2.2.1 (Or.inl rfl)⟩

/-- C10 fails as stated: `exampleDaoFractional` is scrolled by the window, its top offset
`0.1` exceeds the window scroll 0, and with the exact sums `S(k)` of the header height 25
and the row heights `23.3`, row 2 is the smallest row with
`rootElementOffset.top + S(k) - windowScrollTop ≥ windowHeight` (the exact value at row 2
is above 95, at rows 0 and 1 below), so the claim gives the result `2 - 1 = 1`; the code
computes `94.99999999999999` at row 2, goes on to row 3 and returns 2. -/
theorem pixel_walk_exact_sum_is_off_by_one :
    exampleDaoFractional.topOverlay.mainTableScrollableElementIsRootWindow = true
    ∧ exampleDaoFractional.wtTable.rootElementOffset.top
        > exampleDaoFractional.rootWindow.getScrollTop
    ∧ ((2 : Nat) : Int) < exampleDaoFractional.totalRows
    ∧ exampleDaoFractional.wtTable.rootElementOffset.top
          + rowsHeightThrough exampleDaoFractional 2
          - exampleDaoFractional.rootWindow.getScrollTop
        ≥ exampleDaoFractional.rootWindow.innerHeight
    ∧ exampleDaoFractional.wtTable.rootElementOffset.top
          + rowsHeightThrough exampleDaoFractional 1
          - exampleDaoFractional.rootWindow.getScrollTop
        < exampleDaoFractional.rootWindow.innerHeight
    ∧ exampleDaoFractional.wtTable.rootElementOffset.top
          + rowsHeightThrough exampleDaoFractional 0
          - exampleDaoFractional.rootWindow.getScrollTop
        < exampleDaoFractional.rootWindow.innerHeight
    ∧ getLastVisibleRow exampleDaoFractional = 2
    ∧ getLastVisibleRow exampleDaoFractional ≠ ((2 : Nat) : Int) - 1 := by
  have hres : getLastVisibleRow exampleDaoFractional = 2 := by
    obtain ⟨h0, h1, h2, h3⟩ := rowBottomEdge_exampleDaoFractional
    have hwalk := overflowWalk_eq_some exampleDaoFractional.topOverlay.sumCellSizes
      exampleDaoFractional.wtTable.rootElementOffset.top
      exampleDaoFractional.rootWindow.getScrollTop
      exampleDaoFractional.rootWindow.innerHeight
      exampleDaoFractional.wtViewport.getColumnHeaderHeight 5 0 3 (by norm_num) (by norm_num)
      (by
        show rowBottomEdge exampleDaoFractional 3 ≥ exampleDaoFractional.rootWindow.innerHeight
        rw [h3]
        norm_num [exampleDaoFractional])
      (by
        intro i _ hi
        show rowBottomEdge exampleDaoFractional i < exampleDaoFractional.rootWindow.innerHeight
        interval_cases i
        · rw [h0]
          norm_num [exampleDaoFractional]
        · rw [h1]
          norm_num [exampleDaoFractional]
        · rw [h2]
          norm_num [exampleDaoFractional])
    exact getLastVisibleRow_of_break exampleDaoFractional 2 rfl
      (by norm_num [exampleDaoFractional, exampleDaoInWindow]) hwalk
  refine ⟨rfl, by norm_num [exampleDaoFractional, exampleDaoInWindow], by decide,
    ?_, ?_, ?_, hres, ?_⟩
  · norm_num [rowsHeightThrough, accumulatedSize, Finset.sum_range_succ, exampleDaoFractional,
      exampleDaoInWindow, exampleDao]
  · norm_num [rowsHeightThrough, accumulatedSize, Finset.sum_range_succ, exampleDaoFractional,
      exampleDaoInWindow, exampleDao]
  · norm_num [rowsHeightThrough, accumulatedSize, Finset.sum_range_succ, exampleDaoFractional,
      exampleDaoInWindow, exampleDao]
  · rw [hres]
    decide

/-- C10, amended: the pixel walk in the arithmetic of the code.  When the vertical scroll
element is the window and `rootElementOffset.top > windowScrollTop`, let `E(k)` be the
number `rootElementOffset.top + S(k) - windowScrollTop` as the loop computes it, `S(k)`
being the column header height plus the heights of rows `0..k` added one by one and every
`+` and `-` being rounded (`rowBottomEdge`).  If some row `k` of `[0, totalRows - 1]` has
`E(k) ≥ windowHeight`, then `getLastVisibleRow` returns `k0 - 1` for the smallest such row
`k0`, so the result lies in `[-1, totalRows - 2]`, every row `0..result` has
`E < windowHeight` and row `result + 1` does not; if no row has `E(k) ≥ windowHeight`, the
result is `wtTable.getLastVisibleRow()`.  The same for `getLastVisibleColumn` with the row
header width, the column widths, the inline-start offset, `|windowScrollLeft|` and the
window width (`columnEndEdge`). -/
theorem pixel_walk_finds_first_computed_overflow (dao : ScrollDao) :
    ((dao.topOverlay.mainTableScrollableElementIsRootWindow = true
        ∧ dao.wtTable.rootElementOffset.top > dao.rootWindow.getScrollTop) →
      ((∃ k : Nat, (k : Int) < dao.totalRows
          ∧ rowBottomEdge dao k ≥ dao.rootWindow.innerHeight) →
        ∃ k0 : Nat, (k0 : Int) < dao.totalRows
          ∧ rowBottomEdge dao k0 ≥ dao.rootWindow.innerHeight
          ∧ (∀ j : Nat, j < k0 →
              rowBottomEdge dao j < dao.rootWindow.innerHeight)
          ∧ getLastVisibleRow dao = (k0 : Int) - 1
          ∧ -1 ≤ getLastVisibleRow dao ∧ getLastVisibleRow dao ≤ dao.totalRows - 2
          ∧ (∀ j : Nat, (j : Int) ≤ getLastVisibleRow dao →
              rowBottomEdge dao j < dao.rootWindow.innerHeight)
          ∧ rowBottomEdge dao (getLastVisibleRow dao + 1).toNat ≥ dao.rootWindow.innerHeight)
      ∧ ((∀ k : Nat, (k : Int) < dao.totalRows →
          rowBottomEdge dao k < dao.rootWindow.innerHeight) →
        getLastVisibleRow dao = dao.wtTable.getLastVisibleRow))
    ∧ ((dao.inlineStartOverlay.mainTableScrollableElementIsRootWindow = true
        ∧ inlineStartRootElementOffset dao > |dao.rootWindow.getScrollLeft|) →
      ((∃ k : Nat, (k : Int) < dao.totalColumns
          ∧ columnEndEdge dao k ≥ dao.rootWindow.innerWidth) →
        ∃ k0 : Nat, (k0 : Int) < dao.totalColumns
          ∧ columnEndEdge dao k0 ≥ dao.rootWindow.innerWidth
          ∧ (∀ j : Nat, j < k0 →
              columnEndEdge dao j < dao.rootWindow.innerWidth)
          ∧ getLastVisibleColumn dao = (k0 : Int) - 1
          ∧ -1 ≤ getLastVisibleColumn dao ∧ getLastVisibleColumn dao ≤ dao.totalColumns - 2
          ∧ (∀ j : Nat, (j : Int) ≤ getLastVisibleColumn dao →
              columnEndEdge dao j < dao.rootWindow.innerWidth)
          ∧ columnEndEdge dao (getLastVisibleColumn dao + 1).toNat ≥ dao.rootWindow.innerWidth)
      ∧ ((∀ k : Nat, (k : Int) < dao.totalColumns →
          columnEndEdge dao k < dao.rootWindow.innerWidth) →
        getLastVisibleColumn dao = dao.wtTable.getLastVisibleColumn)) := by
  constructor
  · rintro ⟨hw, hgt⟩
    have hwalk := overflowWalk_whole_axis dao.topOverlay.sumCellSizes
      dao.wtTable.rootElementOffset.top dao.rootWindow.getScrollTop dao.rootWindow.innerHeight
      dao.wtViewport.getColumnHeaderHeight dao.totalRows
    constructor
    · intro hex
      obtain ⟨k0, hlt, hov, hmin, hres⟩ := hwalk.1 hex
      have hrow : getLastVisibleRow dao = (k0 : Int) - 1 := by
        unfold getLastVisibleRow
        simp only [hw, hgt, if_true, hres]
      refine ⟨k0, hlt, hov, hmin, hrow, by omega, by omega, ?_, ?_⟩
      · intro j hj
        exact hmin j (by omega)
      · have hk : (getLastVisibleRow dao + 1).toNat = k0 := by omega
        rw [hk]
        exact hov
    · intro hall
      have hres := hwalk.2 hall
      unfold getLastVisibleRow
      simp only [hw, hgt, if_true, hres]
  · rintro ⟨hw, hgt⟩
    have hwalk := overflowWalk_whole_axis dao.inlineStartOverlay.sumCellSizes
      (inlineStartRootElementOffset dao) |dao.rootWindow.getScrollLeft|
      dao.rootWindow.innerWidth dao.wtViewport.getRowHeaderWidth dao.totalColumns
    constructor
    · intro hex
      obtain ⟨k0, hlt, hov, hmin, hres⟩ := hwalk.1 hex
      have hcol : getLastVisibleColumn dao = (k0 : Int) - 1 := by
        unfold getLastVisibleColumn
        simp only [hw, hgt, if_true, hres]
      refine ⟨k0, hlt, hov, hmin, hcol, by omega, by omega, ?_, ?_⟩
      · intro j hj
        exact hmin j (by omega)
      · have hk : (getLastVisibleColumn dao + 1).toNat = k0 := by omega
        rw [hk]
        exact hov
    · intro hall
      have hres := hwalk.2 hall
      unfold getLastVisibleColumn
      simp only [hw, hgt, if_true, hres]

/-- C10 amended, at a concrete input: in `exampleDaoFractional` the computed bottom edges
of rows 0 to 2 are below the window height 95 and that of row 3 is not, so row 3 is the
first row that overflows and the result is row 2. -/
theorem pixel_walk_finds_first_computed_overflow_witness :
    (∃ k : Nat, (k : Int) < exampleDaoFractional.totalRows
      ∧ rowBottomEdge exampleDaoFractional k ≥ exampleDaoFractional.rootWindow.innerHeight)
    ∧ getLastVisibleRow exampleDaoFractional = 2 := by
  obtain ⟨h0, h1, h2, h3⟩ := rowBottomEdge_exampleDaoFractional
  have hex : ∃ k : Nat, (k : Int) < exampleDaoFractional.totalRows
      ∧ rowBottomEdge exampleDaoFractional k
        ≥ exampleDaoFractional.rootWindow.innerHeight :=
    ⟨3, by decide, by rw [h3]; norm_num [exampleDaoFractional]⟩
  obtain ⟨k0, hlt, hov, hmin, hres, -⟩ :=
    ((pixel_walk_finds_first_computed_overflow exampleDaoFractional).1
      ⟨rfl, by norm_num [exampleDaoFractional, exampleDaoInWindow]⟩).1 hex
  have hk0 : k0 = 3 := by
    have htotal : exampleDaoFractional.totalRows = 5 := rfl
    have hlt5 : k0 < 5 := by omega
    interval_cases k0
    · rw [h0] at hov
      norm_num [exampleDaoFractional] at hov
    · rw [h1] at hov
      norm_num [exampleDaoFractional] at hov
    · rw [h2] at hov
      norm_num [exampleDaoFractional] at hov
    · rfl
    · have h := hmin 3 (by norm_num)
      rw [h3] at h
      norm_num [exampleDaoFractional] at h
  refine ⟨hex, ?_⟩
  rw [hres, hk0]
  norm_num

/-- C11: under auto-snapping (both hints undefined) a row in either frozen band,
`row < fixedRowsTop` or `row > totalRows - fixedRowsBottom - 1`, makes
`scrollViewportVertically` return false with no call made and the `Scroll` object
unchanged; the horizontal axis only tests `column < fixedColumnsStart`, so on a drawn
table every valid column at or after `fixedColumnsStart`, trailing positions included,
passes the frozen-band test and is handed to the pre-scroll hook. -/
theorem frozen_rows_both_bands_columns_leading_only {σ : Type} (env : Dom σ) (w : σ)
    (self : Scroll) (target : ℚ) :
    ((target < (env.dataAccessObject w).fixedRowsTop
        ∨ target > (((env.dataAccessObject w).totalRows
            - (env.dataAccessObject w).fixedRowsBottom - 1 : Int) : ℚ)) →
      scrollViewportVertically env w self target none none
        = { result := false, self := self, dom := w, calls := [] })
    ∧ (((env.dataAccessObject w).drawn = true ∧ Number.isInteger target = true
        ∧ 0 ≤ target ∧ target ≤ (env.dataAccessObject w).totalColumns
        ∧ ((env.dataAccessObject w).fixedColumnsStart : ℚ) ≤ target) →
      (scrollViewportHorizontally env w self target none none).calls.head?
        = some (.onBeforeViewportScrollHorizontally target)) := by
  constructor
  · intro hf
    by_cases hg : ¬ (env.dataAccessObject w).drawn ∨ ¬ Number.isInteger target ∨ target < 0
        ∨ target > (env.dataAccessObject w).totalRows
    · exact scrollViewportVertically_of_guard env w self target none none hg
    · exact scrollViewportVertically_of_frozen env w self target none none hg ⟨rfl, hf⟩
  · rintro ⟨hd, hi, h0, ht, hf⟩
    have hg := guard_passes hd hi h0 ht
    have hx : ¬ (((none : Option Bool).isNone && (none : Option Bool).isNone) = true
        ∧ target < (env.dataAccessObject w).fixedColumnsStart) :=
      fun hx => absurd hf (not_le.mpr hx.2)
    rcases scrollViewportHorizontally_cases env w self target none none
      with h | h | ⟨flag, h⟩
    · exfalso
      by_cases h1 : getFirstVisibleColumn (env.dataAccessObject w) = -1
      · have h2 := scrollViewportHorizontally_of_noneVisible env w self target none none
          hg hx h1
        rw [h] at h2
        simp [scrollToColumn] at h2
      · by_cases h3 : ((none : Option Bool).isNone && (none : Option Bool).isNone) = true
            ∧ ((env.dataAccessObject w).wtSettings.onBeforeViewportScrollHorizontally target
                < getFirstVisibleColumn (env.dataAccessObject w)
              ∨ (env.dataAccessObject w).wtSettings.onBeforeViewportScrollHorizontally target
                > getLastVisibleColumn (env.dataAccessObject w))
            ∨ ¬ ((none : Option Bool).isNone && (none : Option Bool).isNone) = true
        · have h2 := scrollViewportHorizontally_of_outside env w self target none none
            hg hx h1 h3
          rw [h] at h2
          simp [scrollToColumn] at h2
        · have h2 := scrollViewportHorizontally_of_inside env w self target none none
            hg hx h1 h3
          rw [h] at h2
          simp at h2
    · rw [h]
      rfl
    · rw [h]
      rfl

/-- C11, at concrete inputs: with one frozen bottom row, row 99 of 100 is not scrolled,
while the last column 49 of 50 is handed to the hook and to the overlay. -/
theorem frozen_rows_both_bands_columns_leading_only_witness :
    scrollViewportVertically (exampleDom true) { exampleDao with fixedRowsBottom := 1 }
        Scroll.new 99 none none
      = { result := false, self := Scroll.new,
          dom := { exampleDao with fixedRowsBottom := 1 }, calls := [] }
    ∧ (scrollViewportHorizontally (exampleDom true) exampleDao Scroll.new 49
        none none).calls.head?
      = some (.onBeforeViewportScrollHorizontally 49)
    ∧ scrollViewportHorizontally (exampleDom true) exampleDao Scroll.new 49 none none
      = { result := true
          self := { lastScrolledColumnPos := 49, lastScrolledRowPos := -1 }
          dom := exampleDao
          calls := [.onBeforeViewportScrollHorizontally 49,
                    .inlineStartOverlayScrollTo 49 (some true)] } :=
  ⟨(frozen_rows_both_bands_columns_leading_only (exampleDom true)
      { exampleDao with fixedRowsBottom := 1 } Scroll.new 99).1
      (Or.inr (by norm_num [exampleDom, exampleDao])),
    (frozen_rows_both_bands_columns_leading_only (exampleDom true) exampleDao
      Scroll.new 49).2
      ⟨rfl, by norm_num [Number.isInteger], by norm_num,
        by norm_num [exampleDom, exampleDao], by norm_num [exampleDom, exampleDao]⟩,
    rfl⟩

/-- C12: explicit snapping always delegates with the caller's flag.  On a drawn table,
for a valid target and at least one snap hint of the axis that is not undefined, the axis
overlay's `scrollTo` is called exactly once, with `(t, snapToRight)` horizontally and
`(t, snapToBottom)` vertically, `t` being the hook's value for the target, whatever the
visible range, the frozen bands and the `Scroll` object are; the call returns the
overlay's result.  With only `snapToLeft` (`snapToTop`) set, the flag is the undefined
`snapToRight` (`snapToBottom`). -/
theorem explicit_snap_always_delegates {σ : Type} (env : Dom σ) (w : σ) (self : Scroll)
    (target : ℚ) (snapToTop snapToRight snapToBottom snapToLeft : Option Bool) :
    (((env.dataAccessObject w).drawn = true ∧ Number.isInteger target = true
        ∧ 0 ≤ target ∧ target ≤ (env.dataAccessObject w).totalColumns
        ∧ (snapToRight ≠ none ∨ snapToLeft ≠ none)) →
      ∀ t, t = (env.dataAccessObject w).wtSettings.onBeforeViewportScrollHorizontally target →
        scrollViewportHorizontally env w self target snapToRight snapToLeft
          = { result := (env.inlineStartOverlayScrollTo w t snapToRight).1
              self :=
                if (env.inlineStartOverlayScrollTo w t snapToRight).1 = true then
                  { self with lastScrolledColumnPos := t }
                else self
              dom := (env.inlineStartOverlayScrollTo w t snapToRight).2
              calls := [.onBeforeViewportScrollHorizontally target,
                        .inlineStartOverlayScrollTo t snapToRight] })
    ∧ (((env.dataAccessObject w).drawn = true ∧ Number.isInteger target = true
        ∧ 0 ≤ target ∧ target ≤ (env.dataAccessObject w).totalRows
        ∧ (snapToTop ≠ none ∨ snapToBottom ≠ none)) →
      ∀ t, t = (env.dataAccessObject w).wtSettings.onBeforeViewportScrollVertically target →
        scrollViewportVertically env w self target snapToTop snapToBottom
          = { result := (env.topOverlayScrollTo w t snapToBottom).1
              self :=
                if (env.topOverlayScrollTo w t snapToBottom).1 = true then
                  { self with lastScrolledRowPos := t }
                else self
              dom := (env.topOverlayScrollTo w t snapToBottom).2
              calls := [.onBeforeViewportScrollVertically target,
                        .topOverlayScrollTo t snapToBottom] }) := by
  constructor
  · rintro ⟨hd, hi, h0, ht, hs⟩ t rfl
    rw [scrollViewportHorizontally_of_explicit env w self target _ _
      (guard_passes hd hi h0 ht) hs]
    rfl
  · rintro ⟨hd, hi, h0, ht, hs⟩ t rfl
    rw [scrollViewportVertically_of_explicit env w self target _ _
      (guard_passes hd hi h0 ht) hs]
    rfl

/-- C12, at concrete inputs: columns 0 to 8 are fully visible and three columns are
frozen; column 2, frozen and visible, with only `snapToLeft` set is delegated as
`(2, undefined)`, and row 15, visible, with `snapToBottom` set is delegated as
`(15, true)`. -/
theorem explicit_snap_always_delegates_witness :
    scrollViewportHorizontally (exampleDom true) (exampleDaoVisible 10 20 0 8) Scroll.new 2
        none (some true)
      = { result := true
          self := { lastScrolledColumnPos := 2, lastScrolledRowPos := -1 }
          dom := exampleDaoVisible 10 20 0 8
          calls := [.onBeforeViewportScrollHorizontally 2,
                    .inlineStartOverlayScrollTo 2 none] }
    ∧ scrollViewportVertically (exampleDom true) (exampleDaoVisible 10 20 0 8) Scroll.new 15
        none (some true)
      = { result := true
          self := { lastScrolledColumnPos := -1, lastScrolledRowPos := 15 }
          dom := exampleDaoVisible 10 20 0 8
          calls := [.onBeforeViewportScrollVertically 15,
                    .topOverlayScrollTo 15 (some true)] } :=
  ⟨(explicit_snap_always_delegates (exampleDom true) (exampleDaoVisible 10 20 0 8)
      Scroll.new 2 none none none (some true)).1
      ⟨rfl, by norm_num [Number.isInteger], by norm_num,
        by norm_num [exampleDom, exampleDaoVisible, exampleDao], Or.inr (by simp)⟩
      2 rfl,
    (explicit_snap_always_delegates (exampleDom true) (exampleDaoVisible 10 20 0 8)
      Scroll.new 15 none none (some true) none).2
      ⟨rfl, by norm_num [Number.isInteger], by norm_num,
        by norm_num [exampleDom, exampleDaoVisible, exampleDao], Or.inr (by simp)⟩
      15 rfl⟩

/-- C13: on a newly constructed `Scroll`, with no fully visible column at both calls,
auto-snapping, a hook that returns the columns unchanged and valid unfrozen columns
`c1 < c2`, the consecutive calls `scrollViewportHorizontally(c1)` and
`scrollViewportHorizontally(c2)` both pass the flag true to
`inlineStartOverlay.scrollTo`, whether or not the overlay reports success on the first
call.  The second call runs on the object and the DOM state left by the first. -/
theorem increasing_targets_snap_rightward_twice {σ : Type} (env : Dom σ) (w : σ)
    (c1 c2 : ℚ)
    (hd1 : (env.dataAccessObject w).drawn = true) (hi1 : Number.isInteger c1 = true)
    (h01 : 0 ≤ c1) (ht1 : c1 ≤ (env.dataAccessObject w).totalColumns)
    (hf1 : ((env.dataAccessObject w).fixedColumnsStart : ℚ) ≤ c1)
    (hv1 : getFirstVisibleColumn (env.dataAccessObject w) = -1)
    (hh1 : (env.dataAccessObject w).wtSettings.onBeforeViewportScrollHorizontally c1 = c1)
    (hlt : c1 < c2)
    (hd2 : (env.dataAccessObject
      (scrollViewportHorizontally env w Scroll.new c1 none none).dom).drawn = true)
    (hi2 : Number.isInteger c2 = true)
    (ht2 : c2 ≤ (env.dataAccessObject
      (scrollViewportHorizontally env w Scroll.new c1 none none).dom).totalColumns)
    (hf2 : ((env.dataAccessObject
      (scrollViewportHorizontally env w Scroll.new c1 none none).dom).fixedColumnsStart : ℚ)
        ≤ c2)
    (hv2 : getFirstVisibleColumn (env.dataAccessObject
      (scrollViewportHorizontally env w Scroll.new c1 none none).dom) = -1)
    (hh2 : (env.dataAccessObject
      (scrollViewportHorizontally env w Scroll.new c1 none none).dom
        ).wtSettings.onBeforeViewportScrollHorizontally c2 = c2) :
    (scrollViewportHorizontally env w Scroll.new c1 none none).calls
        = [.onBeforeViewportScrollHorizontally c1, .inlineStartOverlayScrollTo c1 (some true)]
    ∧ (scrollViewportHorizontally env
        (scrollViewportHorizontally env w Scroll.new c1 none none).dom
        (scrollViewportHorizontally env w Scroll.new c1 none none).self c2 none none).calls
        = [.onBeforeViewportScrollHorizontally c2,
           .inlineStartOverlayScrollTo c2 (some true)] := by
  have hfirst := scrollViewportHorizontally_of_history env w Scroll.new c1 hd1 hi1 h01 ht1
    hf1 hv1
  have hpos : (scrollViewportHorizontally env w Scroll.new c1 none none
      ).self.lastScrolledColumnPos < c2 := by
    rw [hfirst]
    simp only [scrollToColumn, hh1]
    split_ifs
    · exact hlt
    · show (-1 : ℚ) < c2
      linarith
  have hsecond := scrollViewportHorizontally_of_history env
    (scrollViewportHorizontally env w Scroll.new c1 none none).dom
    (scrollViewportHorizontally env w Scroll.new c1 none none).self c2 hd2 hi2
    (le_trans h01 hlt.le) ht2 hf2 hv2
  constructor
  · rw [hfirst]
    have hflag : c1 > Scroll.new.lastScrolledColumnPos := by
      show c1 > (-1 : ℚ)
      linarith
    simp only [scrollToColumn, hh1, hflag, decide_True]
  · rw [hsecond]
    simp only [scrollToColumn, hh2, gt_iff_lt, hpos, decide_True]

/-- C13, at concrete inputs: columns 10 and then 20, with an overlay that refuses to
move. -/
theorem increasing_targets_snap_rightward_twice_witness :
    (scrollViewportHorizontally (exampleDom false) exampleDao Scroll.new 10 none none).calls
        = [.onBeforeViewportScrollHorizontally 10,
           .inlineStartOverlayScrollTo 10 (some true)]
    ∧ (scrollViewportHorizontally (exampleDom false)
        (scrollViewportHorizontally (exampleDom false) exampleDao Scroll.new 10
          none none).dom
        (scrollViewportHorizontally (exampleDom false) exampleDao Scroll.new 10
          none none).self 20 none none).calls
        = [.onBeforeViewportScrollHorizontally 20,
           .inlineStartOverlayScrollTo 20 (some true)] :=
  increasing_targets_snap_rightward_twice (exampleDom false) exampleDao 10 20
    rfl (by norm_num [Number.isInteger]) (by norm_num)
    (by norm_num [exampleDom, exampleDao]) (by norm_num [exampleDom, exampleDao]) rfl rfl
    (by norm_num) rfl (by norm_num [Number.isInteger])
    (by
      have h : (scrollViewportHorizontally (exampleDom false) exampleDao Scroll.new 10
          none none).dom = exampleDao := rfl
      rw [h]
      norm_num [exampleDom, exampleDao])
    (by
      have h : (scrollViewportHorizontally (exampleDom false) exampleDao Scroll.new 10
          none none).dom = exampleDao := rfl
      rw [h]
      norm_num [exampleDom, exampleDao])
    rfl rfl

/-- C14 fails as stated: on a newly constructed `Scroll` with no fully visible column,
the first of the calls `scrollViewportHorizontally(10)`, `scrollViewportHorizontally(5)`
passes the flag true (`10 > -1`), not false; and when the overlay refuses to move, the
second call passes true as well (`5 > -1`). -/
theorem decreasing_targets_first_snap_is_rightward :
    (scrollViewportHorizontally (exampleDom true) exampleDao Scroll.new 10 none none).calls
        = [.onBeforeViewportScrollHorizontally 10,
           .inlineStartOverlayScrollTo 10 (some true)]
    ∧ (scrollViewportHorizontally (exampleDom false)
        (scrollViewportHorizontally (exampleDom false) exampleDao Scroll.new 10
          none none).dom
        (scrollViewportHorizontally (exampleDom false) exampleDao Scroll.new 10
          none none).self 5 none none).calls
        = [.onBeforeViewportScrollHorizontally 5,
           .inlineStartOverlayScrollTo 5 (some true)] :=
  ⟨rfl, rfl⟩

/-- C14, amended: on a newly constructed `Scroll`, with no fully visible column at both
calls, auto-snapping, a hook that returns the columns unchanged and valid unfrozen
columns `c1 > c2`, the first call passes the flag true (`c1 > -1`); the second call passes
the flag false (leftward) when the overlay reported success on the first call, and true
when it reported failure. -/
theorem decreasing_targets_snap_leftward_after_success {σ : Type} (env : Dom σ) (w : σ)
    (c1 c2 : ℚ)
    (hd1 : (env.dataAccessObject w).drawn = true) (hi1 : Number.isInteger c1 = true)
    (ht1 : c1 ≤ (env.dataAccessObject w).totalColumns)
    (hf1 : ((env.dataAccessObject w).fixedColumnsStart : ℚ) ≤ c1)
    (hv1 : getFirstVisibleColumn (env.dataAccessObject w) = -1)
    (hh1 : (env.dataAccessObject w).wtSettings.onBeforeViewportScrollHorizontally c1 = c1)
    (hlt : c2 < c1)
    (hd2 : (env.dataAccessObject
      (scrollViewportHorizontally env w Scroll.new c1 none none).dom).drawn = true)
    (hi2 : Number.isInteger c2 = true) (h02 : 0 ≤ c2)
    (ht2 : c2 ≤ (env.dataAccessObject
      (scrollViewportHorizontally env w Scroll.new c1 none none).dom).totalColumns)
    (hf2 : ((env.dataAccessObject
      (scrollViewportHorizontally env w Scroll.new c1 none none).dom).fixedColumnsStart : ℚ)
        ≤ c2)
    (hv2 : getFirstVisibleColumn (env.dataAccessObject
      (scrollViewportHorizontally env w Scroll.new c1 none none).dom) = -1)
    (hh2 : (env.dataAccessObject
      (scrollViewportHorizontally env w Scroll.new c1 none none).dom
        ).wtSettings.onBeforeViewportScrollHorizontally c2 = c2) :
    (scrollViewportHorizontally env w Scroll.new c1 none none).calls
        = [.onBeforeViewportScrollHorizontally c1, .inlineStartOverlayScrollTo c1 (some true)]
    ∧ ((scrollViewportHorizontally env w Scroll.new c1 none none).result = true →
      (scrollViewportHorizontally env
        (scrollViewportHorizontally env w Scroll.new c1 none none).dom
        (scrollViewportHorizontally env w Scroll.new c1 none none).self c2 none none).calls
        = [.onBeforeViewportScrollHorizontally c2,
           .inlineStartOverlayScrollTo c2 (some false)])
    ∧ ((scrollViewportHorizontally env w Scroll.new c1 none none).result = false →
      (scrollViewportHorizontally env
        (scrollViewportHorizontally env w Scroll.new c1 none none).dom
        (scrollViewportHorizontally env w Scroll.new c1 none none).self c2 none none).calls
        = [.onBeforeViewportScrollHorizontally c2,
           .inlineStartOverlayScrollTo c2 (some true)]) := by
  have h01 : 0 ≤ c1 := le_trans h02 hlt.le
  have hfirst := scrollViewportHorizontally_of_history env w Scroll.new c1 hd1 hi1 h01 ht1
    hf1 hv1
  have hsecond := scrollViewportHorizontally_of_history env
    (scrollViewportHorizontally env w Scroll.new c1 none none).dom
    (scrollViewportHorizontally env w Scroll.new c1 none none).self c2 hd2 hi2 h02 ht2 hf2 hv2
  refine ⟨?_, fun hr => ?_, fun hr => ?_⟩
  · rw [hfirst]
    have hflag : c1 > Scroll.new.lastScrolledColumnPos := by
      show c1 > (-1 : ℚ)
      linarith
    simp only [scrollToColumn, hh1, hflag, decide_True]
  · have hpos : (scrollViewportHorizontally env w Scroll.new c1 none none
        ).self.lastScrolledColumnPos = c1 := by
      rw [hfirst] at hr ⊢
      simp only [scrollToColumn, hh1] at hr ⊢
      simp [hr]
    rw [hsecond]
    have hflag : ¬ c2 > c1 := not_lt.mpr hlt.le
    simp only [scrollToColumn, hh2, hpos, hflag, decide_False]
  · have hpos : (scrollViewportHorizontally env w Scroll.new c1 none none
        ).self.lastScrolledColumnPos = -1 := by
      rw [hfirst] at hr ⊢
      simp only [scrollToColumn, hh1] at hr ⊢
      rw [hr]
      rfl
    rw [hsecond]
    have hflag : c2 > (-1 : ℚ) := by linarith
    simp only [scrollToColumn, hh2, hpos, hflag, decide_True]

/-- C14 amended, at concrete inputs: columns 10 and then 5, with an overlay that moves;
the first call snaps rightward and the second leftward. -/
theorem decreasing_targets_snap_leftward_after_success_witness :
    (scrollViewportHorizontally (exampleDom true) exampleDao Scroll.new 10 none none).calls
        = [.onBeforeViewportScrollHorizontally 10,
           .inlineStartOverlayScrollTo 10 (some true)]
    ∧ (scrollViewportHorizontally (exampleDom true)
        (scrollViewportHorizontally (exampleDom true) exampleDao Scroll.new 10
          none none).dom
        (scrollViewportHorizontally (exampleDom true) exampleDao Scroll.new 10
          none none).self 5 none none).calls
        = [.onBeforeViewportScrollHorizontally 5,
           .inlineStartOverlayScrollTo 5 (some false)] :=
  have h := decreasing_targets_snap_leftward_after_success (exampleDom true) exampleDao 10 5
    rfl (by norm_num [Number.isInteger])
    (by norm_num [exampleDom, exampleDao]) (by norm_num [exampleDom, exampleDao]) rfl rfl
    (by norm_num) rfl (by norm_num [Number.isInteger]) (by norm_num)
    (by
      have h : (scrollViewportHorizontally (exampleDom true) exampleDao Scroll.new 10
          none none).dom = exampleDao := rfl
      rw [h]
      norm_num [exampleDom, exampleDao])
    (by
      have h : (scrollViewportHorizontally (exampleDom true) exampleDao Scroll.new 10
          none none).dom = exampleDao := rfl
      rw [h]
      norm_num [exampleDom, exampleDao])
    rfl rfl
  ⟨h.1, h.2.1 rfl⟩

/-- C15 fails as stated: columns 0 to 8 are fully visible and three columns are frozen;
column 2 is valid, frozen and inside the fully visible range, yet with `snapToRight` set
the call hands `(2, true)` to `inlineStartOverlay.scrollTo` and returns true. -/
theorem frozen_visible_column_explicit_snap_scrolls :
    getFirstVisibleColumn (exampleDaoVisible 10 20 0 8) ≠ -1
    ∧ (getFirstVisibleColumn (exampleDaoVisible 10 20 0 8) : ℚ) ≤ 2
    ∧ (2 : ℚ) ≤ getLastVisibleColumn (exampleDaoVisible 10 20 0 8)
    ∧ (2 : ℚ) < (exampleDaoVisible 10 20 0 8).fixedColumnsStart
    ∧ scrollViewportHorizontally (exampleDom true) (exampleDaoVisible 10 20 0 8) Scroll.new 2
        (some true) none
      = { result := true
          self := { lastScrolledColumnPos := 2, lastScrolledRowPos := -1 }
          dom := exampleDaoVisible 10 20 0 8
          calls := [.onBeforeViewportScrollHorizontally 2,
                    .inlineStartOverlayScrollTo 2 (some true)] } :=
  ⟨by decide,
    by norm_num [getFirstVisibleColumn, exampleDaoVisible],
    by rw [getLastVisibleColumn_of_container] <;> norm_num [exampleDaoVisible, exampleDao],
    by norm_num [exampleDaoVisible, exampleDao],
    rfl⟩

/-- C15, amended: an explicit `snapToRight` / `snapToLeft` is always honored inside the
frozen leading-column band.  On a drawn table, for every valid column below
`fixedColumnsStart` and an explicit snap hint, `inlineStartOverlay.scrollTo` is called
exactly once with `(t, snapToRight)`, `t` being the hook's value for the column, and the
call returns the overlay's result, whether or not a column is fully visible and whether
or not the column lies inside the fully visible range. -/
theorem frozen_column_explicit_snap_delegates {σ : Type} (env : Dom σ) (w : σ)
    (self : Scroll) (column : ℚ) (snapToRight snapToLeft : Option Bool)
    (hd : (env.dataAccessObject w).drawn = true) (hi : Number.isInteger column = true)
    (h0 : 0 ≤ column) (ht : column ≤ (env.dataAccessObject w).totalColumns)
    (_hf : column < (env.dataAccessObject w).fixedColumnsStart)
    (hs : snapToRight ≠ none ∨ snapToLeft ≠ none) :
    (scrollViewportHorizontally env w self column snapToRight snapToLeft).calls
      = [.onBeforeViewportScrollHorizontally column,
         .inlineStartOverlayScrollTo
           ((env.dataAccessObject w).wtSettings.onBeforeViewportScrollHorizontally column)
           snapToRight]
    ∧ (scrollViewportHorizontally env w self column snapToRight snapToLeft).result
      = (env.inlineStartOverlayScrollTo w
          ((env.dataAccessObject w).wtSettings.onBeforeViewportScrollHorizontally column)
          snapToRight).1 := by
  rw [scrollViewportHorizontally_of_explicit env w self column _ _
    (guard_passes hd hi h0 ht) hs]
  exact ⟨rfl, rfl⟩

/-- C15 amended, at a concrete input: the frozen column 1, inside the fully visible
columns 0 to 8, with `snapToLeft` set. -/
theorem frozen_column_explicit_snap_delegates_witness :
    (scrollViewportHorizontally (exampleDom true) (exampleDaoVisible 10 20 0 8) Scroll.new 1
        none (some true)).calls
      = [.onBeforeViewportScrollHorizontally 1, .inlineStartOverlayScrollTo 1 none]
    ∧ (scrollViewportHorizontally (exampleDom true) (exampleDaoVisible 10 20 0 8) Scroll.new 1
        none (some true)).result = true :=
  frozen_column_explicit_snap_delegates (exampleDom true) (exampleDaoVisible 10 20 0 8)
    Scroll.new 1 none (some true) rfl (by norm_num [Number.isInteger]) (by norm_num)
    (by norm_num [exampleDom, exampleDaoVisible, exampleDao])
    (by norm_num [exampleDom, exampleDaoVisible, exampleDao]) (Or.inr (by simp))

/-- C16: `getLastVisibleColumn` depends on the layout direction only through the
inline-start offset: two tables that agree on the overlay, the inline-start offset, the
absolute window scroll, the window width, the row header width, the column count and the
render-state last visible column give the same result; hence an RTL table in which the
number `|tableRect.right - documentElement.offsetWidth|` is `d` and the window
`scrollLeft` is `-s` gives the result of the LTR table with `rootElementOffset.left = d`
and `scrollLeft = s`. -/
theorem rtl_ltr_same_last_visible_column (rtl ltr : ScrollDao) (d s : ℚ)
    (hov : rtl.inlineStartOverlay = ltr.inlineStartOverlay)
    (hwidth : rtl.rootWindow.innerWidth = ltr.rootWindow.innerWidth)
    (hheader : rtl.wtViewport.getRowHeaderWidth = ltr.wtViewport.getRowHeaderWidth)
    (htotal : rtl.totalColumns = ltr.totalColumns)
    (hlast : rtl.wtTable.getLastVisibleColumn = ltr.wtTable.getLastVisibleColumn) :
    ((inlineStartRootElementOffset rtl = inlineStartRootElementOffset ltr
        ∧ |rtl.rootWindow.getScrollLeft| = |ltr.rootWindow.getScrollLeft|) →
      getLastVisibleColumn rtl = getLastVisibleColumn ltr)
    ∧ ((rtl.wtSettings.rtlMode = true ∧ ltr.wtSettings.rtlMode = false
        ∧ |Number.sub rtl.wtTable.tableRectRight rtl.rootWindow.docOffsetWidth| = d
        ∧ ltr.wtTable.rootElementOffset.left = d
        ∧ rtl.rootWindow.getScrollLeft = -s ∧ ltr.rootWindow.getScrollLeft = s) →
      getLastVisibleColumn rtl = getLastVisibleColumn ltr) := by
  have hgen : (inlineStartRootElementOffset rtl = inlineStartRootElementOffset ltr
        ∧ |rtl.rootWindow.getScrollLeft| = |ltr.rootWindow.getScrollLeft|) →
      getLastVisibleColumn rtl = getLastVisibleColumn ltr := by
    rintro ⟨hoff, hscroll⟩
    unfold getLastVisibleColumn
    simp only [hov, hwidth, hheader, htotal, hlast, hoff, hscroll]
  refine ⟨hgen, ?_⟩
  rintro ⟨hr, hl, hdr, hdl, hsr, hsl⟩
  apply hgen
  constructor
  · have h1 : inlineStartRootElementOffset rtl = d := by
      unfold inlineStartRootElementOffset
      rw [if_pos hr]
      exact hdr
    have h2 : inlineStartRootElementOffset ltr = d := by
      unfold inlineStartRootElementOffset
      rw [if_neg (by simp [hl])]
      exact hdl
    rw [h1, h2]
  · rw [hsr, hsl, abs_neg]

/-- C16, at concrete inputs: an RTL table whose right edge is 30 pixels from the document
width with `scrollLeft = -10`, and the LTR table 30 pixels from the left with
`scrollLeft = 10`; both give column 1. -/
theorem rtl_ltr_same_last_visible_column_witness :
    getLastVisibleColumn (exampleDaoRtl 170 200 (-10))
        = getLastVisibleColumn (exampleDaoInWindow 0 30 0 10)
    ∧ getLastVisibleColumn (exampleDaoInWindow 0 30 0 10) = 1 := by
  have hsub : Number.sub 170 200 = -30 := by
    exact_mod_cast Number.sub_intCast 170 200 (by norm_num)
  have hfirst := (rtl_ltr_same_last_visible_column (exampleDaoRtl 170 200 (-10))
      (exampleDaoInWindow 0 30 0 10) 30 10 rfl rfl rfl rfl rfl).2
      ⟨rfl, rfl,
        (by
          show |Number.sub 170 200| = (30 : ℚ)
          rw [hsub]
          norm_num),
        rfl, rfl, rfl⟩
  obtain ⟨h0, h1, h2⟩ := columnEndEdge_exampleDaoInWindow
  have hwalk := overflowWalk_eq_some
    (exampleDaoInWindow 0 30 0 10).inlineStartOverlay.sumCellSizes
    (inlineStartRootElementOffset (exampleDaoInWindow 0 30 0 10))
    |(exampleDaoInWindow 0 30 0 10).rootWindow.getScrollLeft|
    (exampleDaoInWindow 0 30 0 10).rootWindow.innerWidth
    (exampleDaoInWindow 0 30 0 10).wtViewport.getRowHeaderWidth 4 0 2 (by norm_num)
    (by norm_num)
    (by
      show columnEndEdge (exampleDaoInWindow 0 30 0 10) 2
        ≥ (exampleDaoInWindow 0 30 0 10).rootWindow.innerWidth
      rw [h2]
      norm_num [exampleDaoInWindow])
    (by
      intro i _ hi
      show columnEndEdge (exampleDaoInWindow 0 30 0 10) i
        < (exampleDaoInWindow 0 30 0 10).rootWindow.innerWidth
      interval_cases i
      · rw [h0]
        norm_num [exampleDaoInWindow]
      · rw [h1]
        norm_num [exampleDaoInWindow])
  exact ⟨hfirst, getLastVisibleColumn_of_break (exampleDaoInWindow 0 30 0 10) 1 rfl
    (by
      show (30 : ℚ) > |(10 : ℚ)|
      norm_num) hwalk⟩

/-- C17, the code at the boundary target: in a drawn table of 50 columns and 100 rows,
column 50 and row 100 are not indices of the dataset, yet `scrollViewportHorizontally(50)`
reaches `inlineStartOverlay.scrollTo` both with `snapToRight` set and under
auto-snapping, and `scrollViewportVertically(100)` with `snapToBottom` set reaches
`topOverlay.scrollTo`; each call returns true and records the target. -/
theorem target_equal_to_total_reaches_overlay :
    exampleDao.drawn = true ∧ exampleDao.totalColumns = 50 ∧ exampleDao.totalRows = 100
    ∧ scrollViewportHorizontally (exampleDom true) exampleDao Scroll.new 50 (some true) none
      = { result := true
          self := { lastScrolledColumnPos := 50, lastScrolledRowPos := -1 }
          dom := exampleDao
          calls := [.onBeforeViewportScrollHorizontally 50,
                    .inlineStartOverlayScrollTo 50 (some true)] }
    ∧ scrollViewportHorizontally (exampleDom true) exampleDao Scroll.new 50 none none
      = { result := true
          self := { lastScrolledColumnPos := 50, lastScrolledRowPos := -1 }
          dom := exampleDao
          calls := [.onBeforeViewportScrollHorizontally 50,
                    .inlineStartOverlayScrollTo 50 (some true)] }
    ∧ scrollViewportVertically (exampleDom true) exampleDao Scroll.new 100 none (some true)
      = { result := true
          self := { lastScrolledColumnPos := -1, lastScrolledRowPos := 100 }
          dom := exampleDao
          calls := [.onBeforeViewportScrollVertically 100,
                    .topOverlayScrollTo 100 (some true)] } :=
  ⟨rfl, rfl, rfl, rfl, rfl, rfl⟩

/-- C18: the hook's result is used without being validated again.  For every hook and
every call whose original target passes the entry guard and the frozen-band exemption,
with `t` the hook's value for the target and whatever `t` is (negative, above the total,
not an integer, in a frozen band): with nothing fully visible the overlay's `scrollTo` is
called with `(t, t > lastScrolledPos)` under auto-snapping and with `(t, snapToRight)`
otherwise; with something fully visible it is called with `(t, t > lastVisible)` when
auto-snapping finds `t` outside the fully visible range, with `(t, snapToRight)` when a
hint is explicit, and not at all when auto-snapping finds `t` inside the range; a true
result of the overlay records `t`.  The original target appears only in the two tests and
as the hook's argument.  Horizontal axis first, vertical axis second (`snapToBottom` in
place of `snapToRight`). -/
theorem hook_value_is_not_revalidated {σ : Type} (env : Dom σ) (w : σ) (self : Scroll)
    (target : ℚ) (snapToTop snapToRight snapToBottom snapToLeft : Option Bool) :
    (((env.dataAccessObject w).drawn = true ∧ Number.isInteger target = true
        ∧ 0 ≤ target ∧ target ≤ (env.dataAccessObject w).totalColumns
        ∧ ¬ ((snapToRight.isNone && snapToLeft.isNone) = true
          ∧ target < (env.dataAccessObject w).fixedColumnsStart)) →
      ∀ t, t = (env.dataAccessObject w).wtSettings.onBeforeViewportScrollHorizontally target →
        (getFirstVisibleColumn (env.dataAccessObject w) = -1 →
          ∀ flag,
            flag = (if (snapToRight.isNone && snapToLeft.isNone) = true then
                some (decide (t > self.lastScrolledColumnPos))
              else snapToRight) →
            scrollViewportHorizontally env w self target snapToRight snapToLeft
              = { result := (env.inlineStartOverlayScrollTo w t flag).1
                  self :=
                    if (env.inlineStartOverlayScrollTo w t flag).1 = true then
                      { self with lastScrolledColumnPos := t }
                    else self
                  dom := (env.inlineStartOverlayScrollTo w t flag).2
                  calls := [.onBeforeViewportScrollHorizontally target,
                            .inlineStartOverlayScrollTo t flag] })
        ∧ (getFirstVisibleColumn (env.dataAccessObject w) ≠ -1 →
          ((snapToRight.isNone && snapToLeft.isNone) = true
              ∧ (t < getFirstVisibleColumn (env.dataAccessObject w)
                ∨ t > getLastVisibleColumn (env.dataAccessObject w))
            ∨ ¬ (snapToRight.isNone && snapToLeft.isNone) = true) →
          ∀ flag,
            flag = (if (snapToRight.isNone && snapToLeft.isNone) = true then
                some (decide (t > getLastVisibleColumn (env.dataAccessObject w)))
              else snapToRight) →
            scrollViewportHorizontally env w self target snapToRight snapToLeft
              = { result := (env.inlineStartOverlayScrollTo w t flag).1
                  self :=
                    if (env.inlineStartOverlayScrollTo w t flag).1 = true then
                      { self with lastScrolledColumnPos := t }
                    else self
                  dom := (env.inlineStartOverlayScrollTo w t flag).2
                  calls := [.onBeforeViewportScrollHorizontally target,
                            .inlineStartOverlayScrollTo t flag] })
        ∧ (getFirstVisibleColumn (env.dataAccessObject w) ≠ -1 →
          ¬ ((snapToRight.isNone && snapToLeft.isNone) = true
              ∧ (t < getFirstVisibleColumn (env.dataAccessObject w)
                ∨ t > getLastVisibleColumn (env.dataAccessObject w))
            ∨ ¬ (snapToRight.isNone && snapToLeft.isNone) = true) →
          scrollViewportHorizontally env w self target snapToRight snapToLeft
            = { result := false, self := self, dom := w,
                calls := [.onBeforeViewportScrollHorizontally target] }))
    ∧ (((env.dataAccessObject w).drawn = true ∧ Number.isInteger target = true
        ∧ 0 ≤ target ∧ target ≤ (env.dataAccessObject w).totalRows
        ∧ ¬ ((snapToTop.isNone && snapToBottom.isNone) = true
          ∧ (target < (env.dataAccessObject w).fixedRowsTop
            ∨ target > (((env.dataAccessObject w).totalRows
              - (env.dataAccessObject w).fixedRowsBottom - 1 : Int) : ℚ)))) →
      ∀ t, t = (env.dataAccessObject w).wtSettings.onBeforeViewportScrollVertically target →
        (getFirstVisibleRow (env.dataAccessObject w) = -1 →
          ∀ flag,
            flag = (if (snapToTop.isNone && snapToBottom.isNone) = true then
                some (decide (t > self.lastScrolledRowPos))
              else snapToBottom) →
            scrollViewportVertically env w self target snapToTop snapToBottom
              = { result := (env.topOverlayScrollTo w t flag).1
                  self :=
                    if (env.topOverlayScrollTo w t flag).1 = true then
                      { self with lastScrolledRowPos := t }
                    else self
                  dom := (env.topOverlayScrollTo w t flag).2
                  calls := [.onBeforeViewportScrollVertically target,
                            .topOverlayScrollTo t flag] })
        ∧ (getFirstVisibleRow (env.dataAccessObject w) ≠ -1 →
          ((snapToTop.isNone && snapToBottom.isNone) = true
              ∧ (t < getFirstVisibleRow (env.dataAccessObject w)
                ∨ t > getLastVisibleRow (env.dataAccessObject w))
            ∨ ¬ (snapToTop.isNone && snapToBottom.isNone) = true) →
          ∀ flag,
            flag = (if (snapToTop.isNone && snapToBottom.isNone) = true then
                some (decide (t > getLastVisibleRow (env.dataAccessObject w)))
              else snapToBottom) →
            scrollViewportVertically env w self target snapToTop snapToBottom
              = { result := (env.topOverlayScrollTo w t flag).1
                  self :=
                    if (env.topOverlayScrollTo w t flag).1 = true then
                      { self with lastScrolledRowPos := t }
                    else self
                  dom := (env.topOverlayScrollTo w t flag).2
                  calls := [.onBeforeViewportScrollVertically target,
                            .topOverlayScrollTo t flag] })
        ∧ (getFirstVisibleRow (env.dataAccessObject w) ≠ -1 →
          ¬ ((snapToTop.isNone && snapToBottom.isNone) = true
              ∧ (t < getFirstVisibleRow (env.dataAccessObject w)
                ∨ t > getLastVisibleRow (env.dataAccessObject w))
            ∨ ¬ (snapToTop.isNone && snapToBottom.isNone) = true) →
          scrollViewportVertically env w self target snapToTop snapToBottom
            = { result := false, self := self, dom := w,
                calls := [.onBeforeViewportScrollVertically target] })) := by
  constructor
  · rintro ⟨hd, hi, h0, ht, hx⟩ t rfl
    have hg := guard_passes hd hi h0 ht
    refine ⟨fun h1 flag hflag => ?_, fun h1 h2 flag hflag => ?_, fun h1 h2 => ?_⟩
    · rw [scrollViewportHorizontally_of_noneVisible env w self target _ _ hg hx h1, hflag]
      rfl
    · rw [scrollViewportHorizontally_of_outside env w self target _ _ hg hx h1 h2, hflag]
      rfl
    · exact scrollViewportHorizontally_of_inside env w self target _ _ hg hx h1 h2
  · rintro ⟨hd, hi, h0, ht, hx⟩ t rfl
    have hg := guard_passes hd hi h0 ht
    refine ⟨fun h1 flag hflag => ?_, fun h1 h2 flag hflag => ?_, fun h1 h2 => ?_⟩
    · rw [scrollViewportVertically_of_noneVisible env w self target _ _ hg hx h1, hflag]
      rfl
    · rw [scrollViewportVertically_of_outside env w self target _ _ hg hx h1 h2, hflag]
      rfl
    · exact scrollViewportVertically_of_inside env w self target _ _ hg hx h1 h2

/-- C18, at concrete inputs.  With nothing fully visible and a hook that sends every
column to `7/2`, the valid column 10 makes the overlay scroll to `(7/2, true)` and `7/2`
is recorded, although it is not an integer.  With columns 3 to 8 fully visible and a hook
that sends every column to 70, above the 50 columns of the table, the visible column 5
makes the overlay scroll to `(70, true)` and 70 is recorded. -/
theorem hook_value_is_not_revalidated_witness :
    Number.isInteger (7 / 2) = false
    ∧ scrollViewportHorizontally (exampleDom true)
        (exampleDaoHooked exampleDao fun _ => 7 / 2) Scroll.new 10 none none
      = { result := true
          self := { lastScrolledColumnPos := 7 / 2, lastScrolledRowPos := -1 }
          dom := exampleDaoHooked exampleDao fun _ => 7 / 2
          calls := [.onBeforeViewportScrollHorizontally 10,
                    .inlineStartOverlayScrollTo (7 / 2) (some true)] }
    ∧ scrollViewportHorizontally (exampleDom true)
        (exampleDaoHooked (exampleDaoVisible 10 20 3 8) fun _ => 70) Scroll.new 5 none none
      = { result := true
          self := { lastScrolledColumnPos := 70, lastScrolledRowPos := -1 }
          dom := exampleDaoHooked (exampleDaoVisible 10 20 3 8) fun _ => 70
          calls := [.onBeforeViewportScrollHorizontally 5,
                    .inlineStartOverlayScrollTo 70 (some true)] } :=
  ⟨by norm_num [Number.isInteger],
    ((hook_value_is_not_revalidated (exampleDom true)
      (exampleDaoHooked exampleDao fun _ => 7 / 2) Scroll.new 10 none none none none).1
      ⟨rfl, by norm_num [Number.isInteger], by norm_num,
        by norm_num [exampleDom, exampleDaoHooked, exampleDao],
        by norm_num [exampleDom, exampleDaoHooked, exampleDao]⟩
      (7 / 2) rfl).1 rfl (some true) (by norm_num [Scroll.new]),
    ((hook_value_is_not_revalidated (exampleDom true)
      (exampleDaoHooked (exampleDaoVisible 10 20 3 8) fun _ => 70) Scroll.new 5
      none none none none).1
      ⟨rfl, by norm_num [Number.isInteger], by norm_num,
        by norm_num [exampleDom, exampleDaoHooked, exampleDaoVisible, exampleDao],
        by norm_num [exampleDom, exampleDaoHooked, exampleDaoVisible, exampleDao]⟩
      70 rfl).2.1 (by decide)
      (Or.inl ⟨rfl, Or.inr (by
        rw [getLastVisibleColumn_of_container] <;>
          norm_num [exampleDom, exampleDaoHooked, exampleDaoVisible, exampleDao])⟩)
      (some true)
      (by
        rw [getLastVisibleColumn_of_container] <;>
          norm_num [exampleDom, exampleDaoHooked, exampleDaoVisible, exampleDao])⟩

/-- C19: under auto-snapping the boundary row `totalRows` is never scrolled: for every
state with `fixedRowsBottom ≥ 0`, `scrollViewportVertically(totalRows)` with both hints
undefined returns false with no call made and the `Scroll` object unchanged, since
`totalRows > totalRows - fixedRowsBottom - 1`; the row still passes the range validation,
and on a drawn table an explicit hint takes it to `topOverlay.scrollTo`. -/
theorem boundary_row_needs_explicit_snap {σ : Type} (env : Dom σ) (w : σ) (self : Scroll)
    (hb : 0 ≤ (env.dataAccessObject w).fixedRowsBottom) :
    scrollViewportVertically env w self (env.dataAccessObject w).totalRows none none
        = { result := false, self := self, dom := w, calls := [] }
    ∧ ((env.dataAccessObject w).drawn = true → 0 ≤ (env.dataAccessObject w).totalRows →
      ∀ snapToTop snapToBottom : Option Bool, (snapToTop ≠ none ∨ snapToBottom ≠ none) →
        (scrollViewportVertically env w self (env.dataAccessObject w).totalRows
            snapToTop snapToBottom).calls
          = [.onBeforeViewportScrollVertically (env.dataAccessObject w).totalRows,
             .topOverlayScrollTo
               ((env.dataAccessObject w).wtSettings.onBeforeViewportScrollVertically
                 (env.dataAccessObject w).totalRows)
               snapToBottom]) := by
  constructor
  · by_cases hg : ¬ (env.dataAccessObject w).drawn
        ∨ ¬ Number.isInteger ((env.dataAccessObject w).totalRows : ℚ)
        ∨ ((env.dataAccessObject w).totalRows : ℚ) < 0
        ∨ ((env.dataAccessObject w).totalRows : ℚ) > (env.dataAccessObject w).totalRows
    · exact scrollViewportVertically_of_guard env w self _ none none hg
    · refine scrollViewportVertically_of_frozen env w self _ none none hg
        ⟨rfl, Or.inr ?_⟩
      have : (env.dataAccessObject w).totalRows - (env.dataAccessObject w).fixedRowsBottom - 1
          < (env.dataAccessObject w).totalRows := by omega
      exact_mod_cast this
  · intro hd h0 snapToTop snapToBottom hs
    rw [scrollViewportVertically_of_explicit env w self _ _ _
      (guard_passes hd (isInteger_intCast _) (by exact_mod_cast h0) le_rfl) hs]
    rfl

/-- C19, at concrete inputs: row 100 of a table of 100 rows is not scrolled under
auto-snapping and is scrolled with `snapToBottom` set. -/
theorem boundary_row_needs_explicit_snap_witness :
    scrollViewportVertically (exampleDom true) exampleDao Scroll.new 100 none none
        = { result := false, self := Scroll.new, dom := exampleDao, calls := [] }
    ∧ (scrollViewportVertically (exampleDom true) exampleDao Scroll.new 100
        none (some true)).calls
        = [.onBeforeViewportScrollVertically 100, .topOverlayScrollTo 100 (some true)] :=
  ⟨(boundary_row_needs_explicit_snap (exampleDom true) exampleDao Scroll.new
      (by decide)).1,
    (boundary_row_needs_explicit_snap (exampleDom true) exampleDao Scroll.new
      (by decide)).2 rfl (by decide) none (some true) (Or.inr (by simp))⟩

/-- C20: repeating a successful history-based snap flips its direction.  Under
auto-snapping and with a hook that returns the target unchanged, if
`scrollViewportHorizontally(c)` returns true, then an immediately repeated
`scrollViewportHorizontally(c)`, run with no fully visible column on the object and the
DOM state left by the first call, passes the flag false (`c > c`) to
`inlineStartOverlay.scrollTo`, whatever flag the first call passed.  The same for
`scrollViewportVertically` with `lastScrolledRowPos` and `topOverlay`. -/
theorem repeated_snap_flips_direction {σ : Type} (env : Dom σ) (w : σ) (self : Scroll)
    (c : ℚ) :
    (((scrollViewportHorizontally env w self c none none).result = true
        ∧ (env.dataAccessObject w).wtSettings.onBeforeViewportScrollHorizontally c = c
        ∧ (env.dataAccessObject
            (scrollViewportHorizontally env w self c none none).dom).drawn = true
        ∧ c ≤ (env.dataAccessObject
            (scrollViewportHorizontally env w self c none none).dom).totalColumns
        ∧ ((env.dataAccessObject
            (scrollViewportHorizontally env w self c none none).dom).fixedColumnsStart : ℚ)
          ≤ c
        ∧ getFirstVisibleColumn (env.dataAccessObject
            (scrollViewportHorizontally env w self c none none).dom) = -1
        ∧ (env.dataAccessObject
            (scrollViewportHorizontally env w self c none none).dom
            ).wtSettings.onBeforeViewportScrollHorizontally c = c) →
      (scrollViewportHorizontally env
          (scrollViewportHorizontally env w self c none none).dom
          (scrollViewportHorizontally env w self c none none).self c none none).calls
        = [.onBeforeViewportScrollHorizontally c,
           .inlineStartOverlayScrollTo c (some false)])
    ∧ (((scrollViewportVertically env w self c none none).result = true
        ∧ (env.dataAccessObject w).wtSettings.onBeforeViewportScrollVertically c = c
        ∧ (env.dataAccessObject
            (scrollViewportVertically env w self c none none).dom).drawn = true
        ∧ c ≤ (env.dataAccessObject
            (scrollViewportVertically env w self c none none).dom).totalRows
        ∧ ((env.dataAccessObject
            (scrollViewportVertically env w self c none none).dom).fixedRowsTop : ℚ) ≤ c
        ∧ c ≤ (((env.dataAccessObject
              (scrollViewportVertically env w self c none none).dom).totalRows
            - (env.dataAccessObject
              (scrollViewportVertically env w self c none none).dom).fixedRowsBottom - 1
            : Int) : ℚ)
        ∧ getFirstVisibleRow (env.dataAccessObject
            (scrollViewportVertically env w self c none none).dom) = -1
        ∧ (env.dataAccessObject
            (scrollViewportVertically env w self c none none).dom
            ).wtSettings.onBeforeViewportScrollVertically c = c) →
      (scrollViewportVertically env
          (scrollViewportVertically env w self c none none).dom
          (scrollViewportVertically env w self c none none).self c none none).calls
        = [.onBeforeViewportScrollVertically c, .topOverlayScrollTo c (some false)]) := by
  constructor
  · rintro ⟨hr, hh1, hd2, ht2, hf2, hv2, hh2⟩
    have hvalid : Number.isInteger c = true ∧ 0 ≤ c := by
      by_contra hcon
      have hg : ¬ (env.dataAccessObject w).drawn ∨ ¬ Number.isInteger c ∨ c < 0
          ∨ c > (env.dataAccessObject w).totalColumns := by
        by_cases hi : Number.isInteger c = true
        · exact Or.inr (Or.inr (Or.inl (not_le.mp fun h0 => hcon ⟨hi, h0⟩)))
        · exact Or.inr (Or.inl hi)
      rw [scrollViewportHorizontally_of_guard env w self c none none hg] at hr
      simp at hr
    have hpos : (scrollViewportHorizontally env w self c none none
        ).self.lastScrolledColumnPos = c := by
      rcases scrollViewportHorizontally_cases env w self c none none
        with h | h | ⟨f, h⟩ <;> rw [h] at hr ⊢
      · simp at hr
      · simp at hr
      · simp only [scrollToColumn, hh1] at hr ⊢
        simp [hr]
    rw [scrollViewportHorizontally_of_history env _ _ c hd2 hvalid.1 hvalid.2 ht2 hf2 hv2]
    simp only [scrollToColumn, hh2, hpos, gt_iff_lt, lt_self_iff_false, decide_False]
  · rintro ⟨hr, hh1, hd2, ht2, hf2, hb2, hv2, hh2⟩
    have hvalid : Number.isInteger c = true ∧ 0 ≤ c := by
      by_contra hcon
      have hg : ¬ (env.dataAccessObject w).drawn ∨ ¬ Number.isInteger c ∨ c < 0
          ∨ c > (env.dataAccessObject w).totalRows := by
        by_cases hi : Number.isInteger c = true
        · exact Or.inr (Or.inr (Or.inl (not_le.mp fun h0 => hcon ⟨hi, h0⟩)))
        · exact Or.inr (Or.inl hi)
      rw [scrollViewportVertically_of_guard env w self c none none hg] at hr
      simp at hr
    have hpos : (scrollViewportVertically env w self c none none
        ).self.lastScrolledRowPos = c := by
      rcases scrollViewportVertically_cases env w self c none none
        with h | h | ⟨f, h⟩ <;> rw [h] at hr ⊢
      · simp at hr
      · simp at hr
      · simp only [scrollToRow, hh1] at hr ⊢
        simp [hr]
    rw [scrollViewportVertically_of_history env _ _ c hd2 hvalid.1 hvalid.2 ht2 hf2 hb2 hv2]
    simp only [scrollToRow, hh2, hpos, gt_iff_lt, lt_self_iff_false, decide_False]

/-- C20, at concrete inputs: on a new `Scroll` and with an overlay that moves, column 10
is first snapped rightward, `(10, true)`, and on the repeat leftward, `(10, false)`. -/
theorem repeated_snap_flips_direction_witness :
    (scrollViewportHorizontally (exampleDom true) exampleDao Scroll.new 10 none none).calls
        = [.onBeforeViewportScrollHorizontally 10,
           .inlineStartOverlayScrollTo 10 (some true)]
    ∧ (scrollViewportHorizontally (exampleDom true)
        (scrollViewportHorizontally (exampleDom true) exampleDao Scroll.new 10
          none none).dom
        (scrollViewportHorizontally (exampleDom true) exampleDao Scroll.new 10
          none none).self 10 none none).calls
        = [.onBeforeViewportScrollHorizontally 10,
           .inlineStartOverlayScrollTo 10 (some false)] :=
  ⟨rfl,
    (repeated_snap_flips_direction (exampleDom true) exampleDao Scroll.new 10).1
      ⟨rfl, rfl, rfl,
        (by
          have h : (scrollViewportHorizontally (exampleDom true) exampleDao Scroll.new 10
              none none).dom = exampleDao := rfl
          rw [h]
          norm_num [exampleDom, exampleDao]),
        (by
          have h : (scrollViewportHorizontally (exampleDom true) exampleDao Scroll.new 10
              none none).dom = exampleDao := rfl
          rw [h]
          norm_num [exampleDom, exampleDao]),
        rfl, rfl⟩⟩

end Scroll

end Walkontable
